import Mathlib

/-!
Formal model of the Charybdis block cipher (reference implementation
`charybdis.c` / `charybdis.h` and the AVX2 batch implementation
`charybdis_avx2.c` / `charybdis_avx2.h`).

Machine words (`uint32_t`) are modelled as `Nat` with explicit reduction
modulo `2 ^ 32` wherever the C arithmetic can overflow.  Byte buffers are
modelled as total functions `Nat → Nat` from byte offsets to byte values
(only the offsets actually read by the code matter).  Fixed-shape C arrays
(`uint32_t[4][4]`, `uint32_t[4][8]`, `__m256i[4][4]`) are modelled as
structures with one field per array cell, named after the indices.
-/

/-! ## Word-level primitives (macros ROTL / ROTR and uint32 arithmetic) -/

/-- Truncating 32-bit addition: C `x + y` on `uint32_t`. -/
def add32 (x y : Nat) : Nat := (x + y) % 2 ^ 32

/-- Truncating 32-bit subtraction: C `x - y` on `uint32_t` (two's complement wraparound). -/
def sub32 (x y : Nat) : Nat := (x + (2 ^ 32 - y)) % 2 ^ 32

/-- C macro `ROTR(x,n) = ((x) >> (n)) | ((x) << (32 - (n)))` on `uint32_t`
(the left shift is truncated to 32 bits by the `uint32_t` type). -/
def ROTR (x n : Nat) : Nat := (x >>> n) ||| ((x <<< (32 - n)) % 2 ^ 32)

/-- C macro `ROTL(x,n) = ((x) << (n)) | ((x) >> (32 - (n)))` on `uint32_t`. -/
def ROTL (x n : Nat) : Nat := ((x <<< n) % 2 ^ 32) ||| (x >>> (32 - n))

theorem add32_lt (x y : Nat) : add32 x y < 2 ^ 32 := Nat.mod_lt _ (by norm_num)

theorem sub32_lt (x y : Nat) : sub32 x y < 2 ^ 32 := Nat.mod_lt _ (by norm_num)

theorem sub32_add32 (x y : Nat) (hx : x < 2 ^ 32) (hy : y < 2 ^ 32) :
    sub32 (add32 x y) y = x := by
  unfold add32 sub32
  omega

theorem ROTR_lt (x n : Nat) (hx : x < 2 ^ 32) : ROTR x n < 2 ^ 32 := by
  unfold ROTR
  exact Nat.or_lt_two_pow
    (lt_of_le_of_lt (by rw [Nat.shiftRight_eq_div_pow]; exact Nat.div_le_self _ _) hx)
    (Nat.mod_lt _ (by norm_num))

theorem lor_two_pow_mul_eq_add (c a b : Nat) (ha : a < 2 ^ c) :
    a ||| 2 ^ c * b = a + 2 ^ c * b := by
  apply Nat.eq_of_testBit_eq
  intro i
  rw [Nat.add_comm, Nat.testBit_mul_pow_two_add _ ha, Nat.testBit_or]
  rcases Nat.lt_or_ge i c with h | h
  · have hb : (2 ^ c * b).testBit i = false := by
      rw [Nat.mul_comm, ← Nat.shiftLeft_eq, Nat.testBit_shiftLeft]
      simp [Nat.not_le.mpr h]
    simp [hb, h]
  · have hA : a.testBit i = false :=
      Nat.testBit_eq_false_of_lt (lt_of_lt_of_le ha (Nat.pow_le_pow_right (by norm_num) h))
    have hb : (2 ^ c * b).testBit i = b.testBit (i - c) := by
      rw [Nat.mul_comm, ← Nat.shiftLeft_eq, Nat.testBit_shiftLeft]
      simp [h]
    simp [hb, hA, Nat.not_lt.mpr h]

theorem ROTR_char (x n : Nat) (hx : x < 2 ^ 32) (hn0 : 0 < n) (hn : n < 32) :
    ROTR x n = x / 2 ^ n + 2 ^ (32 - n) * (x % 2 ^ n) := by
  unfold ROTR
  have hsplit : (2 : Nat) ^ 32 = 2 ^ n * 2 ^ (32 - n) := by
    rw [← pow_add]; congr 1; omega
  have h1 : (x <<< (32 - n)) % 2 ^ 32 = 2 ^ (32 - n) * (x % 2 ^ n) := by
    rw [Nat.shiftLeft_eq, hsplit, Nat.mul_comm (2 ^ n) (2 ^ (32 - n)), ← Nat.mul_mod_mul_left]
    ring_nf
  have h2 : x >>> n = x / 2 ^ n := Nat.shiftRight_eq_div_pow x n
  have hlt : x / 2 ^ n < 2 ^ (32 - n) := by
    rw [Nat.div_lt_iff_lt_mul (Nat.two_pow_pos n)]
    calc x < 2 ^ 32 := hx
    _ = 2 ^ (32 - n) * 2 ^ n := by rw [← pow_add]; congr 1; omega
  rw [h1, h2, lor_two_pow_mul_eq_add _ _ _ hlt]

theorem ROTL_eq_ROTR (x n : Nat) (hn : n ≤ 32) : ROTL x n = ROTR x (32 - n) := by
  unfold ROTL ROTR
  rw [Nat.lor_comm]
  congr 3
  omega

theorem ROTL_ROTR (x n : Nat) (hx : x < 2 ^ 32) (hn0 : 0 < n) (hn : n < 32) :
    ROTL (ROTR x n) n = x := by
  have hq : x / 2 ^ n < 2 ^ (32 - n) := by
    rw [Nat.div_lt_iff_lt_mul (Nat.two_pow_pos n)]
    calc x < 2 ^ 32 := hx
    _ = 2 ^ (32 - n) * 2 ^ n := by rw [← pow_add]; congr 1; omega
  have hR : ROTR x n = x / 2 ^ n + 2 ^ (32 - n) * (x % 2 ^ n) := ROTR_char x n hx hn0 hn
  have hRlt : ROTR x n < 2 ^ 32 := ROTR_lt x n hx
  rw [ROTL_eq_ROTR _ n (by omega)]
  rw [ROTR_char _ (32 - n) hRlt (by omega) (by omega), hR]
  rw [Nat.add_mul_div_left _ _ (Nat.two_pow_pos (32 - n))]
  rw [Nat.add_mul_mod_self_left]
  rw [Nat.div_eq_of_lt hq, Nat.mod_eq_of_lt hq]
  have hne : 32 - (32 - n) = n := by omega
  rw [hne]
  have hdm := Nat.div_add_mod x (2 ^ n)
  omega

/-! ## ARX mixing primitives

The C source defines `G_Mix`, `H_Mix` and the key-schedule mix `F_G_Mix` as
the same four-stage add/xor/rotate sequence over `(a,b,c,d)`, differing only
in the four rotation amounts; their inverses replay the stages in reverse,
rotating left and xoring before subtracting.  We implement the stage
sequence once, parameterised by the rotation amounts, and instantiate it
per constant set. -/

/-- Four-stage forward ARX mix over `(a, b, c, d)` with rotation amounts
`r1 r2 r3 r4`; body identical to C `G_Mix` with the amounts abstracted. -/
def ARX_Mix (r1 r2 r3 r4 a b c d : Nat) : Nat × Nat × Nat × Nat :=
  let a := add32 a b; let d := ROTR (d ^^^ a) r1
  let c := add32 c d; let b := ROTR (b ^^^ c) r2
  let a := add32 a b; let d := ROTR (d ^^^ a) r3
  let c := add32 c d; let b := ROTR (b ^^^ c) r4
  (a, b, c, d)

/-- Four-stage inverse ARX mix; body identical to C `InverseG_Mix` with the
rotation amounts abstracted. -/
def ARX_InverseMix (r1 r2 r3 r4 a b c d : Nat) : Nat × Nat × Nat × Nat :=
  let b := ROTL b r4 ^^^ c; let c := sub32 c d
  let d := ROTL d r3 ^^^ a; let a := sub32 a b
  let b := ROTL b r2 ^^^ c; let c := sub32 c d
  let d := ROTL d r1 ^^^ a; let a := sub32 a b
  (a, b, c, d)

/-- C `G_Mix` with rotation constants `R1 R2 R3 R4 = 13 19 23 29`. -/
def G_Mix (a b c d : Nat) : Nat × Nat × Nat × Nat := ARX_Mix 13 19 23 29 a b c d

/-- C `InverseG_Mix`. -/
def InverseG_Mix (a b c d : Nat) : Nat × Nat × Nat × Nat := ARX_InverseMix 13 19 23 29 a b c d

/-- C `H_Mix` with rotation constants `RH1 RH2 RH3 RH4 = 9 17 21 27`. -/
def H_Mix (a b c d : Nat) : Nat × Nat × Nat × Nat := ARX_Mix 9 17 21 27 a b c d

/-- C `InverseH_Mix`. -/
def InverseH_Mix (a b c d : Nat) : Nat × Nat × Nat × Nat := ARX_InverseMix 9 17 21 27 a b c d

/-- Key-schedule mix `F_G_Mix` with rotation constants `F_R1..F_R4 = 11 19 23 29`. -/
def F_G_Mix (a b c d : Nat) : Nat × Nat × Nat × Nat := ARX_Mix 11 19 23 29 a b c d

/-- Uncurry a four-word mixing function so it can be composed with another. -/
def app4 (f : Nat → Nat → Nat → Nat → Nat × Nat × Nat × Nat) (p : Nat × Nat × Nat × Nat) :
    Nat × Nat × Nat × Nat :=
  f p.1 p.2.1 p.2.2.1 p.2.2.2

theorem ARX_Mix_lt (r1 r2 r3 r4 a b c d : Nat) (hb : b < 2 ^ 32) (hd : d < 2 ^ 32) :
    (ARX_Mix r1 r2 r3 r4 a b c d).1 < 2 ^ 32 ∧
    (ARX_Mix r1 r2 r3 r4 a b c d).2.1 < 2 ^ 32 ∧
    (ARX_Mix r1 r2 r3 r4 a b c d).2.2.1 < 2 ^ 32 ∧
    (ARX_Mix r1 r2 r3 r4 a b c d).2.2.2 < 2 ^ 32 := by
  simp only [ARX_Mix]
  have hd1 : ROTR (d ^^^ add32 a b) r1 < 2 ^ 32 :=
    ROTR_lt _ _ (Nat.xor_lt_two_pow hd (add32_lt _ _))
  have hb1 : ROTR (b ^^^ add32 c (ROTR (d ^^^ add32 a b) r1)) r2 < 2 ^ 32 :=
    ROTR_lt _ _ (Nat.xor_lt_two_pow hb (add32_lt _ _))
  exact ⟨add32_lt _ _,
    ROTR_lt _ _ (Nat.xor_lt_two_pow hb1 (add32_lt _ _)),
    add32_lt _ _,
    ROTR_lt _ _ (Nat.xor_lt_two_pow hd1 (add32_lt _ _))⟩

theorem ARX_InverseMix_Mix (r1 r2 r3 r4 a b c d : Nat)
    (h1 : 0 < r1 ∧ r1 < 32) (h2 : 0 < r2 ∧ r2 < 32)
    (h3 : 0 < r3 ∧ r3 < 32) (h4 : 0 < r4 ∧ r4 < 32)
    (ha : a < 2 ^ 32) (hb : b < 2 ^ 32) (hc : c < 2 ^ 32) (hd : d < 2 ^ 32) :
    app4 (ARX_InverseMix r1 r2 r3 r4) (ARX_Mix r1 r2 r3 r4 a b c d) = (a, b, c, d) := by
  simp only [ARX_Mix, ARX_InverseMix, app4]
  have ha1 : add32 a b < 2 ^ 32 := add32_lt a b
  have hd1 : ROTR (d ^^^ add32 a b) r1 < 2 ^ 32 := ROTR_lt _ _ (Nat.xor_lt_two_pow hd ha1)
  have hc1 : add32 c (ROTR (d ^^^ add32 a b) r1) < 2 ^ 32 := add32_lt _ _
  rw [ROTL_ROTR _ r4
    (Nat.xor_lt_two_pow (ROTR_lt _ _ (Nat.xor_lt_two_pow hb hc1)) (add32_lt _ _)) h4.1 h4.2]
  rw [Nat.xor_cancel_right]
  rw [sub32_add32 _ _ hc1 (ROTR_lt _ _ (Nat.xor_lt_two_pow hd1 (add32_lt _ _)))]
  rw [ROTL_ROTR _ r3 (Nat.xor_lt_two_pow hd1 (add32_lt _ _)) h3.1 h3.2]
  rw [Nat.xor_cancel_right]
  rw [sub32_add32 _ _ ha1 (ROTR_lt _ _ (Nat.xor_lt_two_pow hb hc1))]
  rw [ROTL_ROTR _ r2 (Nat.xor_lt_two_pow hb hc1) h2.1 h2.2]
  rw [Nat.xor_cancel_right]
  rw [sub32_add32 _ _ hc hd1]
  rw [ROTL_ROTR _ r1 (Nat.xor_lt_two_pow hd ha1) h1.1 h1.2]
  rw [Nat.xor_cancel_right]
  rw [sub32_add32 _ _ ha hb]

/-! ## Constant tables (transcribed verbatim from the C source, in decimal) -/

/-- Round constants `CHARYBDIS_RC` (22 rounds times 16 words = 352 words), transcribed from `charybdis.c`. -/
def CHARYBDIS_RC : List Nat := [
  1239722761, 1365433149, 1707180227, 1798536316, 155707586, 206840360, 3173788081, 1477296437,
  2569030198, 398841858, 2751497262, 3921994300, 3241071656, 2732242280, 2663253947, 1921615123,
  4151116029, 2624551243, 2103104591, 1203069586, 3858913853, 3992454944, 549869553, 1133844011,
  115631504, 3159451283, 738803238, 2976351510, 3878430953, 3708151914, 2933068437, 1086576247,
  2206193783, 3055112378, 1733035940, 1799518711, 3869030187, 3192326620, 3022541589, 3620148201,
  1256930132, 249958872, 2312994539, 70206563, 2143949615, 3240857750, 1691234529, 3340105004,
  1363782147, 1359763584, 2077864778, 3222100455, 1936440319, 107417359, 53376356, 2998689786,
  1645156732, 4077422917, 3814908905, 1214570107, 866477658, 4081955551, 557329356, 3030098783,
  2099737423, 2799374678, 4075571953, 1762644726, 4115310601, 611979818, 2233942913, 3510252671,
  2901104151, 1493885929, 1473051363, 3506834161, 3289255599, 1415204298, 3098308415, 2962773094,
  3713421601, 3776703769, 4047991214, 3618446014, 3635711906, 492088499, 1010010025, 911594375,
  2492229835, 2677339020, 4038392768, 515494592, 589469896, 1704280636, 335959719, 218311200,
  989215477, 3683465956, 1582771806, 3370080221, 3593343372, 1718872652, 2195523195, 2125897809,
  421898789, 328801050, 678273045, 2657158037, 2988115087, 3741432718, 2443776210, 956586298,
  2453533076, 715441107, 718909959, 1364135237, 884074187, 1735488400, 3953614537, 110406753,
  3586234205, 700121461, 866274627, 2057660048, 3022985657, 1923740033, 2060859757, 3953953996,
  2722371426, 4222921435, 1362636734, 2412415076, 2603415823, 1759862097, 1704073561, 162921171,
  4206291368, 1364929237, 819556927, 1437513578, 3658695152, 3780239511, 3353839822, 686989556,
  1094360141, 3469089143, 1660780625, 3991059359, 1572030260, 3899684827, 1184959798, 2610229779,
  2597682652, 957602016, 3884199395, 174252933, 3319439405, 3311125967, 3618637692, 3313263915,
  867610670, 2344591814, 3439603552, 3167784221, 1609974661, 1720720257, 2425849533, 1009603584,
  4034694007, 1715354034, 3366716623, 3161925590, 1593599454, 873955029, 1376677016, 1287576638,
  2816184276, 2242628073, 2249004770, 785222532, 3463647734, 550119301, 3552441114, 4100059429,
  1436007728, 2011238385, 1982402235, 1974064058, 2949853952, 3176138631, 2094311442, 1448313509,
  748590581, 464867713, 1943954024, 1009529275, 3210040222, 407760242, 2378255486, 3844841329,
  473821991, 3464930338, 160708740, 2022250056, 3315402749, 1078755701, 529833870, 4037664275,
  3799874731, 1932150038, 2621235974, 527253276, 3216898638, 1762358770, 128248012, 2456595726,
  3097847287, 833279310, 2445732568, 1285087967, 4224796931, 2229036877, 4209088595, 4008585694,
  3026645816, 2334968424, 3535713217, 3187415812, 73547326, 1663855721, 3469090740, 345318126,
  395024456, 3286865337, 2592967269, 2023972357, 3420521657, 3018743757, 1209972995, 567244285,
  2917705307, 2683959677, 2937351984, 216790407, 2731699001, 597449207, 3312485822, 3712661193,
  495686339, 678249220, 210892792, 3527833706, 4027040607, 3227338304, 1951810704, 2893031652,
  733484987, 3967890309, 413113308, 1986305193, 1851888657, 109788362, 586401389, 2364646167,
  2552167467, 3215142300, 3021261898, 3841789407, 4071118937, 4235436076, 2679214407, 3268318224,
  1466583004, 498725532, 480550862, 1608273228, 3120060198, 2460643517, 2042473061, 496772653,
  1696273484, 1028893031, 1401983480, 2946738693, 977962093, 2200912611, 1797561430, 3587357843,
  3301442552, 377260617, 2646511865, 577233283, 2893668452, 118898439, 977236848, 3499775887,
  1205296601, 1169501982, 72655396, 2845517536, 2991327949, 1117888947, 1222560056, 3727246976,
  1316223759, 3354781731, 3288293015, 1472883148, 4105990767, 2752838349, 4067253690, 3829685687,
  36727819, 1599746034, 2662819567, 460014934, 1496816602, 4247587175, 3651674477, 2023883456,
  2063063847, 632724847, 2938291760, 1320611698, 2094170999, 2325864058, 1245852384, 3574533777,
  4161937806, 747513828, 3927720035, 3695054449, 4171727676, 2600195492, 2564246445, 784839125,
  2690883492, 721484, 3324727456, 4153431789, 457040862, 3215105769, 3215731070, 1960443484,
  492889421, 664486504, 1371133627, 3364691767, 686590942, 921003320, 1570821955, 136278972]

/-- Key-schedule initialization constants `C_INIT` (24 words). -/
def C_INIT : List Nat := [
  1631230653, 3527626712, 3739194497, 692105308, 2848433954, 3983345999, 3226099576, 3201553642,
  3945534244, 144975420, 3032123918, 3774016196, 1166866736, 2630462056, 207818523, 1642448867,
  1549717529, 3588506304, 468424519, 2785865950, 40360802, 2781063622, 4023503882, 3401369809]

/-- Key-schedule permutation round constants `RC_F` (64 words). -/
def RC_F : List Nat := [
  2280626238, 1278463563, 3571345617, 1223025541, 2038577610, 2856483261, 956570022, 1555820359,
  1952396684, 2786591464, 3224074353, 3734355600, 3781222041, 884126540, 3076982736, 1352041839,
  488830738, 3633952602, 1845668232, 654120668, 3267702250, 1669135183, 1864294221, 3421706191,
  1676022335, 289137442, 2546998046, 4189249040, 1006363475, 11409836, 932717268, 1334673660,
  2563191790, 3141651139, 2208362382, 269583587, 4213783157, 2256719991, 1265359136, 257039901,
  3652501968, 44782331, 27798402, 3764215979, 1904435940, 1658586023, 553053734, 4152383060,
  674082681, 1788584325, 3430209223, 2841240693, 856349888, 724006029, 2768536626, 2446740590,
  3991660750, 2337154351, 1516644122, 2224661329, 1672104368, 2072455605, 3911626765, 3291203209]

/-- Key-schedule domain-separation constants `KSC` (736 words). -/
def KSC : List Nat := [
  1444204066, 130834309, 1858402872, 3882146692, 3563220661, 1167923195, 550598568, 295820064,
  2531963986, 4148306019, 4043865713, 3835420655, 765277704, 1441959993, 3566804862, 2556704415,
  2682503993, 2097824409, 2184544988, 3312913428, 3645244957, 3657850969, 2781303765, 3435004242,
  2426138246, 3929257238, 159184430, 1293412336, 1351229456, 641605730, 3932530866, 822270050,
  1640892024, 451712842, 1115947655, 862407195, 3071235314, 1105828879, 1626833102, 1736400054,
  3645054074, 3872332551, 3867097872, 1610385202, 1095707381, 2781124621, 158414747, 3504565665,
  3268985555, 1706798104, 2362185545, 252698627, 1640876371, 552851363, 3832735303, 2588608656,
  2754023099, 2712563026, 470104763, 4265779544, 3498319827, 681764603, 1916486129, 564884963,
  1518321438, 1265077654, 606051501, 1941103973, 2956340075, 4164029100, 3412550848, 4209465688,
  792864840, 1995669826, 930144413, 1709207313, 3794898208, 4206535549, 1148845777, 3256313901,
  3795748321, 928179276, 986789707, 1835676955, 2796740088, 2589352712, 3527233268, 2390214311,
  3364621773, 461367859, 1160097068, 1534671679, 1826337722, 2610109646, 2980805599, 827281274,
  2861092106, 3480199052, 4141952898, 3751677677, 3455662443, 356774312, 4116827775, 4133098214,
  1078332490, 992196679, 805543198, 564217691, 4249081052, 866591873, 3470718876, 979616838,
  3122139486, 821729806, 225491328, 3748394679, 280244082, 4211175294, 2446526510, 2778612445,
  1848703769, 840382449, 805953551, 567190999, 2021672656, 1509468570, 3133424859, 1462039461,
  2252501361, 4156563472, 500281721, 4277802588, 2425264363, 3292688002, 1088664652, 1128951243,
  3788701768, 1073772259, 2804632522, 2690929657, 3368048767, 4174792378, 2524557339, 1136315592,
  3375129438, 1473419012, 752848853, 691474717, 2256071292, 3944065044, 908745126, 4036140129,
  1016876341, 2757836375, 1299330754, 3904072699, 1451740534, 370931894, 4019199736, 955533108,
  3360787055, 2813727149, 2708039398, 3768971529, 2429313105, 1884316779, 412994099, 1607213590,
  54064383, 933434825, 647959963, 1536115935, 2954502662, 272020661, 3465264189, 1032860749,
  2876474595, 497042205, 4107695600, 906354556, 70055871, 3144814644, 2336444833, 2093875088,
  813169868, 736467430, 1060307749, 1187930341, 4062149641, 1833171997, 460786621, 2894266085,
  2024659111, 3257243040, 1058159014, 704886274, 2231526390, 2461802655, 2026102209, 4144085907,
  3937478101, 3914407656, 1045566514, 3085550499, 1306729046, 943177729, 1364817603, 2822628844,
  2140458602, 2082942656, 2802416317, 2821662342, 1751201033, 2632024647, 3947073315, 3221562741,
  164125258, 3021125137, 2629426910, 1284483308, 4080264622, 3729219238, 3490061994, 1852341092,
  1963474935, 4145097874, 2470481451, 3961075685, 3920504095, 4110887138, 4183358788, 1427028810,
  1159269814, 1051090542, 3396400672, 2082995513, 2497371819, 1865905806, 769540399, 1193910370,
  2725344167, 628238000, 4119669015, 4037960553, 3204546049, 1540385664, 3589397601, 2361678527,
  1777851020, 76536690, 2798278709, 2781095064, 2309481180, 3231455768, 1657995714, 3133649130,
  192198174, 3456028481, 753568701, 2991602437, 3992915294, 1830161560, 1971505977, 1601134831,
  2789104223, 91537003, 4167655512, 2053068739, 2222134744, 2153769764, 2773292401, 1584262375,
  32678126, 2355751220, 1569449931, 265468629, 433057749, 4173530742, 3627733764, 3648907991,
  345882114, 2896680657, 478396157, 2286678260, 2242061204, 4152575678, 1520452914, 1570420464,
  2217119760, 412905664, 3469593873, 4162486162, 3813480861, 402777880, 4289762857, 2453624947,
  1874783428, 3626115539, 2739759087, 923062064, 1194213992, 2483246842, 2377389269, 2577450915,
  2065835048, 3844292845, 330455006, 4037163571, 3036143841, 2726428457, 833817040, 3384621430,
  222155206, 53606425, 3046955565, 882853211, 3987395750, 285482574, 1823405972, 68283309,
  3200679856, 3091343745, 3044045851, 1684792277, 908281928, 297174105, 676890875, 2910239909,
  3594462627, 1446200615, 1184313872, 2400527671, 3283777784, 4272813792, 500324485, 497944986,
  3307240261, 3991054800, 581214681, 4015554835, 3308525893, 2072092350, 262816238, 1476721595,
  791711489, 4005493060, 1000841097, 719399798, 1032012552, 3186959557, 491634231, 3410426523,
  379580614, 1260107340, 4181803774, 1817183984, 67606659, 3273504388, 2860013220, 3206149248,
  803498940, 865622005, 3786839221, 1089745227, 1294169104, 2487744409, 164349335, 3711727424,
  2804159159, 164567187, 2349412860, 2310624876, 1825966379, 1178231249, 3430729063, 47862802,
  2236009079, 3119166275, 1793603668, 3665694743, 2982818946, 3717479766, 2371761607, 4238735760,
  3852561173, 2620186152, 3381636090, 1816418970, 690160653, 566031197, 2018160277, 2726245957,
  150602117, 1456399323, 1287350826, 3353634485, 2783755579, 4023148398, 1152009858, 1842716969,
  3565226790, 4147735442, 163048565, 4180600838, 3073191013, 3613195282, 2480254247, 3892197166,
  289188495, 927339058, 2927920126, 2826232656, 1799029809, 3165775729, 3930921875, 3896031232,
  2956038645, 1483799118, 880277823, 214469053, 1199388483, 3313698625, 998384594, 1019372944,
  42478825, 2935543662, 4089401881, 3195082494, 911885473, 2216352868, 3771901372, 2389670760,
  3547843981, 1599916477, 4137698544, 1510495769, 3472151686, 2807646493, 2435447493, 279907332,
  997572875, 3118088862, 2958059746, 3007958992, 3797814373, 3514250272, 570036170, 320338072,
  1010098609, 701235426, 1022064783, 2804169636, 3797855305, 2648382520, 669435648, 548529556,
  2639900515, 4011158474, 1844337572, 2308825290, 2357974658, 3460013752, 2571793260, 3622140524,
  1554866263, 1316649186, 3591574393, 1970803775, 1988135795, 2279024297, 1500648758, 2928968840,
  212592592, 627432466, 367470928, 1615448952, 3109371876, 4172562393, 237494557, 22457475,
  132495561, 3344877173, 4101224853, 2790876063, 169749719, 64863023, 1580587132, 2475468944,
  1339121623, 1085797290, 2043637066, 3833154504, 3754321821, 3750523056, 3457660784, 1079636348,
  3505264102, 3631271857, 2914148968, 2593964597, 1962813129, 3276730640, 1980468567, 1163061411,
  742633638, 890021685, 2490024273, 1224621710, 3856818623, 3528973978, 91678939, 3431485065,
  640986719, 3094873021, 2377664143, 287419070, 3859764491, 3110861043, 998968409, 618062735,
  2343481857, 514513038, 2982355233, 430796865, 275053205, 4043530800, 1006251204, 2377356780,
  4168870344, 1954110361, 2042664791, 1861581170, 2522370880, 1377694615, 4201540559, 443409193,
  238470251, 1577540895, 3773344693, 2085797235, 4006265021, 959760943, 1066276268, 835215953,
  3560939706, 4078856424, 1373851888, 3357261409, 3508832539, 2118736371, 56125435, 1768553210,
  2934298395, 3470830456, 28110293, 2030883348, 1453054868, 1316067774, 2408052554, 53423890,
  1913192067, 2812941718, 3231196202, 2024348956, 2331270083, 3516979404, 2296936398, 2858704868,
  384665412, 1496596665, 2705916401, 2077477502, 3937322981, 3119659897, 3307057740, 2001795309,
  3517667168, 705290075, 3224692071, 73491920, 954491716, 5186048, 1256587235, 3487523767,
  380669365, 2061413917, 2761131767, 736801191, 898757305, 2155177123, 3814972431, 1587628143,
  3575365345, 2261674855, 1681397879, 3863432198, 2512929380, 2548541452, 1374237751, 158423280,
  4136865082, 1669827113, 2352860852, 1805647029, 885806571, 1453499630, 4188542785, 374229460,
  116857419, 1377901381, 3379106811, 3698942405, 3781633752, 1547766020, 3819616310, 565355869,
  1354831460, 2017045958, 2412749882, 1909381522, 3779740564, 756300420, 2376886249, 784835188,
  1981620167, 4074667026, 362674344, 209592678, 2984526046, 4278514189, 1324141619, 167879935,
  3379365022, 814259069, 3850029479, 664330449, 459877160, 1973475138, 2629118096, 2476714257,
  111638777, 2696552138, 618876015, 1168467773, 3699592115, 3538205365, 320756365, 3622290643,
  2662485244, 3327517574, 1971503657, 1297971308, 2136565838, 3749985071, 2230112300, 1756400939,
  3674867721, 2476422117, 2850365761, 2018047883, 990817149, 2954125539, 4287909358, 2767046351,
  1805447355, 3209997636, 2300772361, 1147537022, 3878791867, 2937208522, 3448538703, 4255344335,
  767755519, 4159617185, 1429896277, 1212967956, 434506460, 92439452, 1265362252, 1223383990,
  2991709674, 4022996594, 2857962643, 2286265662, 1900445217, 1980774521, 1736576556, 2469880058,
  818026668, 2033563429, 159124172, 3977904083, 2103978270, 1772241619, 2567254626, 1482580712,
  1767445569, 3589987986, 1077230456, 246662029, 2295530986, 3833622237, 2920117275, 371935573,
  3476376776, 2260118017, 3754693996, 144953403, 1052709271, 600525635, 3265915663, 1503253439,
  2398667168, 2674750586, 4272761641, 3280965292, 4133253959, 1473669061, 3646900571, 2005338213,
  3799656681, 648953542, 809329255, 1619718165, 2148785321, 3194788530, 561007680, 200517492,
  881169661, 3668450177, 1139645699, 1233190348, 1423755038, 2535009571, 237594, 175870393]


/-! ## Scalar round engine state: the 4x4 matrix `uint32_t S[4][4]` -/

/-- State matrix of the scalar engine: field `sij` models `S[i][j]`. -/
structure St where
  (s00 s01 s02 s03 : Nat)
  (s10 s11 s12 s13 : Nat)
  (s20 s21 s22 s23 : Nat)
  (s30 s31 s32 s33 : Nat)
deriving DecidableEq

/-- All sixteen words of a state are genuine `uint32_t` values. -/
def StLt (S : St) : Prop :=
  S.s00 < 2 ^ 32 ∧ S.s01 < 2 ^ 32 ∧ S.s02 < 2 ^ 32 ∧ S.s03 < 2 ^ 32 ∧
  S.s10 < 2 ^ 32 ∧ S.s11 < 2 ^ 32 ∧ S.s12 < 2 ^ 32 ∧ S.s13 < 2 ^ 32 ∧
  S.s20 < 2 ^ 32 ∧ S.s21 < 2 ^ 32 ∧ S.s22 < 2 ^ 32 ∧ S.s23 < 2 ^ 32 ∧
  S.s30 < 2 ^ 32 ∧ S.s31 < 2 ^ 32 ∧ S.s32 < 2 ^ 32 ∧ S.s33 < 2 ^ 32

instance (S : St) : Decidable (StLt S) := by
  unfold StLt
  infer_instance

/-- Cyclic relabelling of a 4-tuple by two positions: calling a mix on
`(&col[2], &col[3], &col[0], &col[1])` amounts to applying it to `swap2`
of the current `(col[0], col[1], col[2], col[3])`. -/
def swap2 (p : Nat × Nat × Nat × Nat) : Nat × Nat × Nat × Nat :=
  (p.2.2.1, p.2.2.2, p.1, p.2.1)

/-- C `ColumnMixColumn`: `G_Mix` on `(col0..col3)`, `H_Mix` on `(col0..col3)`,
`H_Mix` on `(col2, col3, col0, col1)`, `G_Mix` on `(col2, col3, col0, col1)`.
Each `let` is one call; tuples after the two relabelled calls are kept in
`(col2, col3, col0, col1)` register order, and the final `swap2` restores
`(col0, col1, col2, col3)` order. -/
def ColumnMixColumn (c0 c1 c2 c3 : Nat) : Nat × Nat × Nat × Nat :=
  let p := G_Mix c0 c1 c2 c3
  let q := app4 H_Mix p
  let r := app4 H_Mix (swap2 q)
  let s := app4 G_Mix r
  swap2 s

/-- C `InverseColumnMixColumn`: the four inverse mixes in exact reverse order,
`InverseG_Mix` and `InverseH_Mix` on `(col2, col3, col0, col1)` first, then
`InverseH_Mix` and `InverseG_Mix` on `(col0, col1, col2, col3)`. -/
def InverseColumnMixColumn (c0 c1 c2 c3 : Nat) : Nat × Nat × Nat × Nat :=
  let p := app4 InverseG_Mix (swap2 (c0, c1, c2, c3))
  let q := app4 InverseH_Mix p
  let r := app4 InverseH_Mix (swap2 q)
  app4 InverseG_Mix r

/-- Column-mix loop of C `Round`: `ColumnMixColumn` applied to each of the
four columns `(S[0][j], S[1][j], S[2][j], S[3][j])` independently. -/
def ColumnMix (S : St) : St :=
  let p0 := ColumnMixColumn S.s00 S.s10 S.s20 S.s30
  let p1 := ColumnMixColumn S.s01 S.s11 S.s21 S.s31
  let p2 := ColumnMixColumn S.s02 S.s12 S.s22 S.s32
  let p3 := ColumnMixColumn S.s03 S.s13 S.s23 S.s33
  ⟨p0.1, p1.1, p2.1, p3.1,
   p0.2.1, p1.2.1, p2.2.1, p3.2.1,
   p0.2.2.1, p1.2.2.1, p2.2.2.1, p3.2.2.1,
   p0.2.2.2, p1.2.2.2, p2.2.2.2, p3.2.2.2⟩

/-- Column-mix loop of C `InverseRound`. -/
def InverseColumnMix (S : St) : St :=
  let p0 := InverseColumnMixColumn S.s00 S.s10 S.s20 S.s30
  let p1 := InverseColumnMixColumn S.s01 S.s11 S.s21 S.s31
  let p2 := InverseColumnMixColumn S.s02 S.s12 S.s22 S.s32
  let p3 := InverseColumnMixColumn S.s03 S.s13 S.s23 S.s33
  ⟨p0.1, p1.1, p2.1, p3.1,
   p0.2.1, p1.2.1, p2.2.1, p3.2.1,
   p0.2.2.1, p1.2.2.1, p2.2.2.1, p3.2.2.1,
   p0.2.2.2, p1.2.2.2, p2.2.2.2, p3.2.2.2⟩

/-- C `ShiftRows` with `SHIFTS = {0,1,2,3}`: `S[i][j] = old S[i][(j + i) & 3]`. -/
def ShiftRows (S : St) : St :=
  ⟨S.s00, S.s01, S.s02, S.s03,
   S.s11, S.s12, S.s13, S.s10,
   S.s22, S.s23, S.s20, S.s21,
   S.s33, S.s30, S.s31, S.s32⟩

/-- C `InverseShiftRows`: `S[i][j] = old S[i][(j - i + 4) & 3]`. -/
def InverseShiftRows (S : St) : St :=
  ⟨S.s00, S.s01, S.s02, S.s03,
   S.s13, S.s10, S.s11, S.s12,
   S.s22, S.s23, S.s20, S.s21,
   S.s31, S.s32, S.s33, S.s30⟩

/-- C `AddRoundKey`: `S[i][j] ^= K[i][j]`. -/
def AddRoundKey (S K : St) : St :=
  ⟨S.s00 ^^^ K.s00, S.s01 ^^^ K.s01, S.s02 ^^^ K.s02, S.s03 ^^^ K.s03,
   S.s10 ^^^ K.s10, S.s11 ^^^ K.s11, S.s12 ^^^ K.s12, S.s13 ^^^ K.s13,
   S.s20 ^^^ K.s20, S.s21 ^^^ K.s21, S.s22 ^^^ K.s22, S.s23 ^^^ K.s23,
   S.s30 ^^^ K.s30, S.s31 ^^^ K.s31, S.s32 ^^^ K.s32, S.s33 ^^^ K.s33⟩

/-- Round-constant word `CHARYBDIS_RC[(round - 1) * 16 + 4 * i + j]`. -/
def rcWord (round i j : Nat) : Nat := CHARYBDIS_RC.getD ((round - 1) * 16 + 4 * i + j) 0

/-- C `SubConstants`: `S[i][j] ^= CHARYBDIS_RC[(round - 1) * 16 + 4 * i + j]`. -/
def SubConstants (S : St) (round : Nat) : St :=
  ⟨S.s00 ^^^ rcWord round 0 0, S.s01 ^^^ rcWord round 0 1,
   S.s02 ^^^ rcWord round 0 2, S.s03 ^^^ rcWord round 0 3,
   S.s10 ^^^ rcWord round 1 0, S.s11 ^^^ rcWord round 1 1,
   S.s12 ^^^ rcWord round 1 2, S.s13 ^^^ rcWord round 1 3,
   S.s20 ^^^ rcWord round 2 0, S.s21 ^^^ rcWord round 2 1,
   S.s22 ^^^ rcWord round 2 2, S.s23 ^^^ rcWord round 2 3,
   S.s30 ^^^ rcWord round 3 0, S.s31 ^^^ rcWord round 3 1,
   S.s32 ^^^ rcWord round 3 2, S.s33 ^^^ rcWord round 3 3⟩

/-- C `Round`: SubConstants, per-column ColumnMixColumn, ShiftRows, AddRoundKey. -/
def Round (S K : St) (r : Nat) : St :=
  AddRoundKey (ShiftRows (ColumnMix (SubConstants S r))) K

/-- C `InverseRound`: AddRoundKey, InverseShiftRows, per-column
InverseColumnMixColumn, SubConstants. -/
def InverseRound (S K : St) (r : Nat) : St :=
  SubConstants (InverseColumnMix (InverseShiftRows (AddRoundKey S K))) r

/-! ## Byte-buffer interface of the scalar engine -/

/-- C `load_le32`: little-endian load of 4 bytes starting at `off`. -/
def load_le32 (b : Nat → Nat) (off : Nat) : Nat :=
  b off + 256 * b (off + 1) + 65536 * b (off + 2) + 16777216 * b (off + 3)

/-- Byte `k` (0..3) of the little-endian encoding of word `w`, as written by
C `store_le32`. -/
def le_byte (w k : Nat) : Nat := (w >>> (8 * k)) % 2 ^ 8

/-- Word `S[m / 4][m % 4]` of a state, `m = 0..15` in row-major order. -/
def stWord (S : St) (m : Nat) : Nat :=
  match m with
  | 0 => S.s00 | 1 => S.s01 | 2 => S.s02 | 3 => S.s03
  | 4 => S.s10 | 5 => S.s11 | 6 => S.s12 | 7 => S.s13
  | 8 => S.s20 | 9 => S.s21 | 10 => S.s22 | 11 => S.s23
  | 12 => S.s30 | 13 => S.s31 | 14 => S.s32 | _ => S.s33

/-- Load `S[i][j] = load_le32(in + 4 * (4 * i + j))`. -/
def loadState (inb : Nat → Nat) : St :=
  ⟨load_le32 inb 0,  load_le32 inb 4,  load_le32 inb 8,  load_le32 inb 12,
   load_le32 inb 16, load_le32 inb 20, load_le32 inb 24, load_le32 inb 28,
   load_le32 inb 32, load_le32 inb 36, load_le32 inb 40, load_le32 inb 44,
   load_le32 inb 48, load_le32 inb 52, load_le32 inb 56, load_le32 inb 60⟩

/-- Store loop: `store_le32(out + 4 * (4 * i + j), S[i][j])`, read back as a
byte function on offsets `0..63`. -/
def storeBlock (S : St) : Nat → Nat :=
  fun k => le_byte (stWord S (k / 4)) (k % 4)

/-- C `Charybdis_EncryptBlock` on a byte buffer, with the subkey array
modelled as a function from subkey index to state matrix. -/
def Charybdis_EncryptBlock (inb : Nat → Nat) (K : Nat → St) : Nat → Nat :=
  let S0 := AddRoundKey (loadState inb) (K 0)
  let S1 := (List.range' 1 22).foldl (fun S r => Round S (K r) r) S0
  storeBlock (AddRoundKey S1 (K 23))

/-- C `Charybdis_DecryptBlock`. -/
def Charybdis_DecryptBlock (inb : Nat → Nat) (K : Nat → St) : Nat → Nat :=
  let S0 := AddRoundKey (loadState inb) (K 23)
  let S1 := (List.range' 1 22).reverse.foldl (fun S r => InverseRound S (K r) r) S0
  storeBlock (AddRoundKey S1 (K 0))

/-- First 64 bytes of a byte buffer, as a list (used to state block equality). -/
def blockBytes (b : Nat → Nat) : List Nat := (List.range 64).map b

/-! ## Invertibility of the mixing layers -/

/-- All four components of a word 4-tuple are `uint32_t` values. -/
def Lt4 (p : Nat × Nat × Nat × Nat) : Prop :=
  p.1 < 2 ^ 32 ∧ p.2.1 < 2 ^ 32 ∧ p.2.2.1 < 2 ^ 32 ∧ p.2.2.2 < 2 ^ 32

instance (p : Nat × Nat × Nat × Nat) : Decidable (Lt4 p) := by
  unfold Lt4
  infer_instance

theorem app4_eta (p : Nat × Nat × Nat × Nat) : (p.1, p.2.1, p.2.2.1, p.2.2.2) = p := rfl

theorem swap2_swap2 (p : Nat × Nat × Nat × Nat) : swap2 (swap2 p) = p := rfl

theorem Lt4_swap2 (p : Nat × Nat × Nat × Nat) (h : Lt4 p) : Lt4 (swap2 p) :=
  ⟨h.2.2.1, h.2.2.2, h.1, h.2.1⟩

theorem Lt4_ARX_Mix (r1 r2 r3 r4 a b c d : Nat) (hb : b < 2 ^ 32) (hd : d < 2 ^ 32) :
    Lt4 (ARX_Mix r1 r2 r3 r4 a b c d) :=
  ARX_Mix_lt r1 r2 r3 r4 a b c d hb hd

theorem Lt4_G_Mix (a b c d : Nat) (hb : b < 2 ^ 32) (hd : d < 2 ^ 32) :
    Lt4 (G_Mix a b c d) :=
  Lt4_ARX_Mix 13 19 23 29 a b c d hb hd

theorem Lt4_app4_G_Mix (p : Nat × Nat × Nat × Nat) (h : Lt4 p) : Lt4 (app4 G_Mix p) :=
  Lt4_ARX_Mix 13 19 23 29 _ _ _ _ h.2.1 h.2.2.2

theorem Lt4_app4_H_Mix (p : Nat × Nat × Nat × Nat) (h : Lt4 p) : Lt4 (app4 H_Mix p) :=
  Lt4_ARX_Mix 9 17 21 27 _ _ _ _ h.2.1 h.2.2.2

theorem app4_InverseG_Mix_G_Mix (a b c d : Nat)
    (ha : a < 2 ^ 32) (hb : b < 2 ^ 32) (hc : c < 2 ^ 32) (hd : d < 2 ^ 32) :
    app4 InverseG_Mix (G_Mix a b c d) = (a, b, c, d) :=
  ARX_InverseMix_Mix 13 19 23 29 a b c d
    (by norm_num) (by norm_num) (by norm_num) (by norm_num) ha hb hc hd

theorem app4_InverseH_Mix_H_Mix (a b c d : Nat)
    (ha : a < 2 ^ 32) (hb : b < 2 ^ 32) (hc : c < 2 ^ 32) (hd : d < 2 ^ 32) :
    app4 InverseH_Mix (H_Mix a b c d) = (a, b, c, d) :=
  ARX_InverseMix_Mix 9 17 21 27 a b c d
    (by norm_num) (by norm_num) (by norm_num) (by norm_num) ha hb hc hd

theorem app4_InverseG_Mix_app4 (p : Nat × Nat × Nat × Nat) (h : Lt4 p) :
    app4 InverseG_Mix (app4 G_Mix p) = p := by
  obtain ⟨a, b, c, d⟩ := p
  exact app4_InverseG_Mix_G_Mix a b c d h.1 h.2.1 h.2.2.1 h.2.2.2

theorem app4_InverseH_Mix_app4 (p : Nat × Nat × Nat × Nat) (h : Lt4 p) :
    app4 InverseH_Mix (app4 H_Mix p) = p := by
  obtain ⟨a, b, c, d⟩ := p
  exact app4_InverseH_Mix_H_Mix a b c d h.1 h.2.1 h.2.2.1 h.2.2.2

theorem InverseColumnMixColumn_ColumnMixColumn (c0 c1 c2 c3 : Nat)
    (h0 : c0 < 2 ^ 32) (h1 : c1 < 2 ^ 32) (h2 : c2 < 2 ^ 32) (h3 : c3 < 2 ^ 32) :
    app4 InverseColumnMixColumn (ColumnMixColumn c0 c1 c2 c3) = (c0, c1, c2, c3) := by
  have hp : Lt4 (G_Mix c0 c1 c2 c3) := Lt4_G_Mix c0 c1 c2 c3 h1 h3
  have hq : Lt4 (app4 H_Mix (G_Mix c0 c1 c2 c3)) := Lt4_app4_H_Mix _ hp
  have hr : Lt4 (app4 H_Mix (swap2 (app4 H_Mix (G_Mix c0 c1 c2 c3)))) :=
    Lt4_app4_H_Mix _ (Lt4_swap2 _ hq)
  show InverseColumnMixColumn
      (ColumnMixColumn c0 c1 c2 c3).1 (ColumnMixColumn c0 c1 c2 c3).2.1
      (ColumnMixColumn c0 c1 c2 c3).2.2.1 (ColumnMixColumn c0 c1 c2 c3).2.2.2 = (c0, c1, c2, c3)
  simp only [InverseColumnMixColumn, app4_eta, ColumnMixColumn]
  rw [swap2_swap2]
  rw [app4_InverseG_Mix_app4 _ hr]
  rw [app4_InverseH_Mix_app4 _ (Lt4_swap2 _ hq)]
  rw [swap2_swap2]
  rw [app4_InverseH_Mix_app4 _ hp]
  show app4 InverseG_Mix (G_Mix c0 c1 c2 c3) = (c0, c1, c2, c3)
  exact app4_InverseG_Mix_G_Mix c0 c1 c2 c3 h0 h1 h2 h3

theorem Lt4_ColumnMixColumn (c0 c1 c2 c3 : Nat) (h1 : c1 < 2 ^ 32) (h3 : c3 < 2 ^ 32) :
    Lt4 (ColumnMixColumn c0 c1 c2 c3) := by
  have hp : Lt4 (G_Mix c0 c1 c2 c3) := Lt4_G_Mix c0 c1 c2 c3 h1 h3
  have hq : Lt4 (app4 H_Mix (G_Mix c0 c1 c2 c3)) := Lt4_app4_H_Mix _ hp
  have hr : Lt4 (app4 H_Mix (swap2 (app4 H_Mix (G_Mix c0 c1 c2 c3)))) :=
    Lt4_app4_H_Mix _ (Lt4_swap2 _ hq)
  exact Lt4_swap2 _ (Lt4_app4_G_Mix _ hr)

/-- Zero state matrix. -/
def stZero : St := ⟨0, 0, 0, 0, 0, 0, 0, 0, 0, 0, 0, 0, 0, 0, 0, 0⟩

theorem getD_lt_of_all (l : List Nat) (i d B : Nat) (hl : ∀ x ∈ l, x < B) (hd : d < B) :
    l.getD i d < B := by
  rw [List.getD_eq_getElem?_getD]
  rcases h : l[i]? with _ | x
  · simpa using hd
  · simpa using hl x (List.getElem?_mem h)

set_option maxRecDepth 20000 in
theorem CHARYBDIS_RC_all_lt : ∀ x ∈ CHARYBDIS_RC, x < 2 ^ 32 := by decide

theorem rcWord_lt (round i j : Nat) : rcWord round i j < 2 ^ 32 :=
  getD_lt_of_all _ _ _ _ CHARYBDIS_RC_all_lt (by norm_num)

theorem StLt_AddRoundKey (S K : St) (hS : StLt S) (hK : StLt K) : StLt (AddRoundKey S K) := by
  unfold StLt at hS hK ⊢
  obtain ⟨a0, a1, a2, a3, a4, a5, a6, a7, a8, a9, a10, a11, a12, a13, a14, a15⟩ := hS
  obtain ⟨b0, b1, b2, b3, b4, b5, b6, b7, b8, b9, b10, b11, b12, b13, b14, b15⟩ := hK
  exact ⟨Nat.xor_lt_two_pow a0 b0, Nat.xor_lt_two_pow a1 b1, Nat.xor_lt_two_pow a2 b2,
    Nat.xor_lt_two_pow a3 b3, Nat.xor_lt_two_pow a4 b4, Nat.xor_lt_two_pow a5 b5,
    Nat.xor_lt_two_pow a6 b6, Nat.xor_lt_two_pow a7 b7, Nat.xor_lt_two_pow a8 b8,
    Nat.xor_lt_two_pow a9 b9, Nat.xor_lt_two_pow a10 b10, Nat.xor_lt_two_pow a11 b11,
    Nat.xor_lt_two_pow a12 b12, Nat.xor_lt_two_pow a13 b13, Nat.xor_lt_two_pow a14 b14,
    Nat.xor_lt_two_pow a15 b15⟩

theorem StLt_SubConstants (S : St) (r : Nat) (hS : StLt S) : StLt (SubConstants S r) := by
  unfold StLt at hS ⊢
  obtain ⟨a0, a1, a2, a3, a4, a5, a6, a7, a8, a9, a10, a11, a12, a13, a14, a15⟩ := hS
  exact ⟨Nat.xor_lt_two_pow a0 (rcWord_lt r 0 0), Nat.xor_lt_two_pow a1 (rcWord_lt r 0 1),
    Nat.xor_lt_two_pow a2 (rcWord_lt r 0 2), Nat.xor_lt_two_pow a3 (rcWord_lt r 0 3),
    Nat.xor_lt_two_pow a4 (rcWord_lt r 1 0), Nat.xor_lt_two_pow a5 (rcWord_lt r 1 1),
    Nat.xor_lt_two_pow a6 (rcWord_lt r 1 2), Nat.xor_lt_two_pow a7 (rcWord_lt r 1 3),
    Nat.xor_lt_two_pow a8 (rcWord_lt r 2 0), Nat.xor_lt_two_pow a9 (rcWord_lt r 2 1),
    Nat.xor_lt_two_pow a10 (rcWord_lt r 2 2), Nat.xor_lt_two_pow a11 (rcWord_lt r 2 3),
    Nat.xor_lt_two_pow a12 (rcWord_lt r 3 0), Nat.xor_lt_two_pow a13 (rcWord_lt r 3 1),
    Nat.xor_lt_two_pow a14 (rcWord_lt r 3 2), Nat.xor_lt_two_pow a15 (rcWord_lt r 3 3)⟩

theorem StLt_ShiftRows (S : St) (hS : StLt S) : StLt (ShiftRows S) := by
  unfold StLt at hS ⊢
  obtain ⟨a0, a1, a2, a3, a4, a5, a6, a7, a8, a9, a10, a11, a12, a13, a14, a15⟩ := hS
  exact ⟨a0, a1, a2, a3, a5, a6, a7, a4, a10, a11, a8, a9, a15, a12, a13, a14⟩

theorem StLt_ColumnMix (S : St) (hS : StLt S) : StLt (ColumnMix S) := by
  unfold StLt at hS
  obtain ⟨a0, a1, a2, a3, a4, a5, a6, a7, a8, a9, a10, a11, a12, a13, a14, a15⟩ := hS
  have h0 := Lt4_ColumnMixColumn S.s00 S.s10 S.s20 S.s30 a4 a12
  have h1 := Lt4_ColumnMixColumn S.s01 S.s11 S.s21 S.s31 a5 a13
  have h2 := Lt4_ColumnMixColumn S.s02 S.s12 S.s22 S.s32 a6 a14
  have h3 := Lt4_ColumnMixColumn S.s03 S.s13 S.s23 S.s33 a7 a15
  exact ⟨h0.1, h1.1, h2.1, h3.1, h0.2.1, h1.2.1, h2.2.1, h3.2.1,
    h0.2.2.1, h1.2.2.1, h2.2.2.1, h3.2.2.1, h0.2.2.2, h1.2.2.2, h2.2.2.2, h3.2.2.2⟩

theorem StLt_Round (S K : St) (r : Nat) (hS : StLt S) (hK : StLt K) : StLt (Round S K r) :=
  StLt_AddRoundKey _ _ (StLt_ShiftRows _ (StLt_ColumnMix _ (StLt_SubConstants S r hS))) hK

theorem AddRoundKey_AddRoundKey (S K : St) : AddRoundKey (AddRoundKey S K) K = S := by
  cases S
  cases K
  simp [AddRoundKey, Nat.xor_cancel_right]

theorem SubConstants_SubConstants (S : St) (r : Nat) : SubConstants (SubConstants S r) r = S := by
  cases S
  simp [SubConstants, Nat.xor_cancel_right]

theorem InverseShiftRows_ShiftRows (S : St) : InverseShiftRows (ShiftRows S) = S := rfl

theorem InverseColumnMixColumn_proj (c0 c1 c2 c3 : Nat)
    (h0 : c0 < 2 ^ 32) (h1 : c1 < 2 ^ 32) (h2 : c2 < 2 ^ 32) (h3 : c3 < 2 ^ 32) :
    InverseColumnMixColumn (ColumnMixColumn c0 c1 c2 c3).1 (ColumnMixColumn c0 c1 c2 c3).2.1
      (ColumnMixColumn c0 c1 c2 c3).2.2.1 (ColumnMixColumn c0 c1 c2 c3).2.2.2 = (c0, c1, c2, c3) :=
  InverseColumnMixColumn_ColumnMixColumn c0 c1 c2 c3 h0 h1 h2 h3

theorem InverseColumnMix_ColumnMix (S : St) (hS : StLt S) : InverseColumnMix (ColumnMix S) = S := by
  unfold StLt at hS
  obtain ⟨a0, a1, a2, a3, a4, a5, a6, a7, a8, a9, a10, a11, a12, a13, a14, a15⟩ := hS
  obtain ⟨v00, v01, v02, v03, v10, v11, v12, v13, v20, v21, v22, v23, v30, v31, v32, v33⟩ := S
  simp only [ColumnMix, InverseColumnMix]
  rw [InverseColumnMixColumn_proj _ _ _ _ a0 a4 a8 a12]
  rw [InverseColumnMixColumn_proj _ _ _ _ a1 a5 a9 a13]
  rw [InverseColumnMixColumn_proj _ _ _ _ a2 a6 a10 a14]
  rw [InverseColumnMixColumn_proj _ _ _ _ a3 a7 a11 a15]

theorem InverseRound_Round (S K : St) (r : Nat) (hS : StLt S) : InverseRound (Round S K r) K r = S := by
  unfold Round InverseRound
  rw [AddRoundKey_AddRoundKey]
  rw [InverseShiftRows_ShiftRows]
  rw [InverseColumnMix_ColumnMix _ (StLt_SubConstants S r hS)]
  exact SubConstants_SubConstants S r

theorem StLt_foldRounds (K : Nat → St) (l : List Nat) (S : St) (hS : StLt S)
    (hK : ∀ r ∈ l, StLt (K r)) :
    StLt (l.foldl (fun s r => Round s (K r) r) S) := by
  induction l generalizing S with
  | nil => exact hS
  | cons r l ih =>
    simp only [List.foldl_cons]
    exact ih (Round S (K r) r) (StLt_Round S (K r) r hS (hK r (List.mem_cons_self r l)))
      (fun q hq => hK q (List.mem_cons_of_mem r hq))

theorem foldRounds_inverse (K : Nat → St) (l : List Nat) (S : St) (hS : StLt S)
    (hK : ∀ r ∈ l, StLt (K r)) :
    l.reverse.foldl (fun s r => InverseRound s (K r) r)
      (l.foldl (fun s r => Round s (K r) r) S) = S := by
  induction l using List.reverseRecOn with
  | nil => rfl
  | append_singleton l r ih =>
    rw [List.foldl_append, List.reverse_append]
    simp only [List.reverse_cons, List.reverse_nil, List.nil_append, List.singleton_append,
      List.foldl_cons, List.foldl_nil]
    rw [InverseRound_Round _ _ _ (StLt_foldRounds K l S hS
      (fun q hq => hK q (List.mem_append_left _ hq)))]
    exact ih (fun q hq => hK q (List.mem_append_left _ hq))

theorem load_le32_lt (b : Nat → Nat) (off : Nat) (h0 : b off < 256) (h1 : b (off + 1) < 256)
    (h2 : b (off + 2) < 256) (h3 : b (off + 3) < 256) : load_le32 b off < 2 ^ 32 := by
  unfold load_le32
  omega

theorem StLt_loadState (b : Nat → Nat) (hb : ∀ j < 64, b j < 256) : StLt (loadState b) := by
  unfold StLt loadState
  refine ⟨?_, ?_, ?_, ?_, ?_, ?_, ?_, ?_, ?_, ?_, ?_, ?_, ?_, ?_, ?_, ?_⟩ <;>
    exact load_le32_lt b _ (hb _ (by norm_num)) (hb _ (by norm_num)) (hb _ (by norm_num))
      (hb _ (by norm_num))

theorem le_byte_recompose (w : Nat) (hw : w < 2 ^ 32) :
    le_byte w 0 + 256 * le_byte w 1 + 65536 * le_byte w 2 + 16777216 * le_byte w 3 = w := by
  unfold le_byte
  simp only [Nat.shiftRight_eq_div_pow]
  norm_num
  omega

theorem loadState_storeBlock (S : St) (hS : StLt S) : loadState (storeBlock S) = S := by
  unfold StLt at hS
  obtain ⟨a0, a1, a2, a3, a4, a5, a6, a7, a8, a9, a10, a11, a12, a13, a14, a15⟩ := hS
  obtain ⟨v00, v01, v02, v03, v10, v11, v12, v13, v20, v21, v22, v23, v30, v31, v32, v33⟩ := S
  simp only [loadState, storeBlock, load_le32, stWord, St.mk.injEq]
  norm_num [stWord]
  exact ⟨le_byte_recompose _ a0, le_byte_recompose _ a1, le_byte_recompose _ a2,
    le_byte_recompose _ a3, le_byte_recompose _ a4, le_byte_recompose _ a5,
    le_byte_recompose _ a6, le_byte_recompose _ a7, le_byte_recompose _ a8,
    le_byte_recompose _ a9, le_byte_recompose _ a10, le_byte_recompose _ a11,
    le_byte_recompose _ a12, le_byte_recompose _ a13, le_byte_recompose _ a14,
    le_byte_recompose _ a15⟩

theorem stWord_loadState (b : Nat → Nat) (m : Nat) (hm : m < 16) :
    stWord (loadState b) m = load_le32 b (4 * m) := by
  interval_cases m <;> norm_num [stWord, loadState]

theorem le_byte_load_le32 (b : Nat → Nat) (off t : Nat) (ht : t < 4)
    (h0 : b off < 256) (h1 : b (off + 1) < 256) (h2 : b (off + 2) < 256)
    (h3 : b (off + 3) < 256) :
    le_byte (load_le32 b off) t = b (off + t) := by
  unfold le_byte load_le32
  simp only [Nat.shiftRight_eq_div_pow]
  interval_cases t <;> norm_num <;> omega

theorem storeBlock_loadState (blk : Nat → Nat) (hb : ∀ j < 64, blk j < 256) :
    ∀ i < 64, storeBlock (loadState blk) i = blk i := by
  intro i hi
  unfold storeBlock
  rw [stWord_loadState blk (i / 4) (by omega)]
  rw [le_byte_load_le32 blk (4 * (i / 4)) (i % 4) (by omega)
    (hb _ (by omega)) (hb _ (by omega)) (hb _ (by omega)) (hb _ (by omega))]
  congr 1
  omega

/-- Claim C1: for every 64-byte block and every subkey schedule of genuine
32-bit words, decrypting the encryption of the block returns the block:
`Charybdis_DecryptBlock(Charybdis_EncryptBlock(x, K), K) == x`. -/
theorem Charybdis_DecryptBlock_EncryptBlock (blk : Nat → Nat) (K : Nat → St)
    (hb : ∀ j < 64, blk j < 256) (hK : ∀ r < 24, StLt (K r)) :
    blockBytes (Charybdis_DecryptBlock (Charybdis_EncryptBlock blk K) K) = blockBytes blk := by
  have hKl : ∀ r ∈ List.range' 1 22, StLt (K r) := by
    intro r hr
    rw [List.mem_range'_1] at hr
    exact hK r (by omega)
  have hS0 : StLt (AddRoundKey (loadState blk) (K 0)) :=
    StLt_AddRoundKey _ _ (StLt_loadState blk hb) (hK 0 (by norm_num))
  have hF : StLt ((List.range' 1 22).foldl (fun s r => Round s (K r) r)
      (AddRoundKey (loadState blk) (K 0))) :=
    StLt_foldRounds K _ _ hS0 hKl
  simp only [Charybdis_EncryptBlock, Charybdis_DecryptBlock]
  rw [loadState_storeBlock _ (StLt_AddRoundKey _ _ hF (hK 23 (by norm_num)))]
  rw [AddRoundKey_AddRoundKey]
  rw [foldRounds_inverse K _ _ hS0 hKl]
  rw [AddRoundKey_AddRoundKey]
  unfold blockBytes
  apply List.map_congr_left
  intro i hi
  exact storeBlock_loadState blk hb i (List.mem_range.mp hi)

/-- Witness for claim C1: round trip at the all-zero block and all-zero schedule. -/
theorem Charybdis_DecryptBlock_EncryptBlock_witness :
    blockBytes (Charybdis_DecryptBlock
      (Charybdis_EncryptBlock (fun _ => 0) (fun _ => stZero)) (fun _ => stZero)) =
    blockBytes (fun _ => 0) :=
  Charybdis_DecryptBlock_EncryptBlock (fun _ => 0) (fun _ => stZero)
    (fun j _ => by norm_num) (fun r _ => (by decide : StLt stZero))

/-- Claim C6: `InverseG_Mix` undoes `G_Mix` (rotation set 13,19,23,29) and
`InverseH_Mix` undoes `H_Mix` (rotation set 9,17,21,27) on every quadruple of
32-bit words. -/
theorem G_H_Mix_exactly_invertible (a b c d : Nat)
    (ha : a < 2 ^ 32) (hb : b < 2 ^ 32) (hc : c < 2 ^ 32) (hd : d < 2 ^ 32) :
    app4 InverseG_Mix (G_Mix a b c d) = (a, b, c, d) ∧
    app4 InverseH_Mix (H_Mix a b c d) = (a, b, c, d) :=
  ⟨app4_InverseG_Mix_G_Mix a b c d ha hb hc hd,
   app4_InverseH_Mix_H_Mix a b c d ha hb hc hd⟩

/-- Witness for claim C6 at the quadruple (1, 2, 3, 4). -/
theorem G_H_Mix_exactly_invertible_witness :
    app4 InverseG_Mix (G_Mix 1 2 3 4) = (1, 2, 3, 4) ∧
    app4 InverseH_Mix (H_Mix 1 2 3 4) = (1, 2, 3, 4) :=
  G_H_Mix_exactly_invertible 1 2 3 4 (by norm_num) (by norm_num) (by norm_num) (by norm_num)

/-- Claim C7: `SubConstants` with a fixed round in 1..22 and `AddRoundKey`
with a fixed subkey are involutions on every 4x4 state. -/
theorem SubConstants_AddRoundKey_involutive (S K : St) (r : Nat) (_hr1 : 1 ≤ r) (_hr2 : r ≤ 22) :
    SubConstants (SubConstants S r) r = S ∧ AddRoundKey (AddRoundKey S K) K = S :=
  ⟨SubConstants_SubConstants S r, AddRoundKey_AddRoundKey S K⟩

/-- Witness for claim C7 at the zero state, zero subkey and round 1. -/
theorem SubConstants_AddRoundKey_involutive_witness :
    SubConstants (SubConstants stZero 1) 1 = stZero ∧
    AddRoundKey (AddRoundKey stZero stZero) stZero = stZero :=
  SubConstants_AddRoundKey_involutive stZero stZero 1 (by norm_num) (by norm_num)

/-! ## Key schedule engine: sponge over the 4x8 state `uint32_t KSS[4][8]` -/

/-- Key-schedule state: field `kij` models `KSS[i][j]`. -/
structure KS where
  (k00 k01 k02 k03 k04 k05 k06 k07 : Nat)
  (k10 k11 k12 k13 k14 k15 k16 k17 : Nat)
  (k20 k21 k22 k23 k24 k25 k26 k27 : Nat)
  (k30 k31 k32 k33 k34 k35 k36 k37 : Nat)
deriving DecidableEq

/-- C `F_perm_Round`: add `RC_F[r*4+i]` into the diagonal `KSS[i][i]`,
`F_G_Mix` down each of the 8 columns, then per row `i` the same mix on
positions `(i, i+1, i+2, i+3) mod 8` and `(i+4, i+5, i+6, i+7) mod 8`
(concrete wrapped index groups written out per row). -/
def F_perm_Round (S : KS) (r : Nat) : KS :=
  let a00 := add32 S.k00 (RC_F.getD (r * 4) 0)
  let a11 := add32 S.k11 (RC_F.getD (r * 4 + 1) 0)
  let a22 := add32 S.k22 (RC_F.getD (r * 4 + 2) 0)
  let a33 := add32 S.k33 (RC_F.getD (r * 4 + 3) 0)
  let c0 := F_G_Mix a00 S.k10 S.k20 S.k30
  let c1 := F_G_Mix S.k01 a11 S.k21 S.k31
  let c2 := F_G_Mix S.k02 S.k12 a22 S.k32
  let c3 := F_G_Mix S.k03 S.k13 S.k23 a33
  let c4 := F_G_Mix S.k04 S.k14 S.k24 S.k34
  let c5 := F_G_Mix S.k05 S.k15 S.k25 S.k35
  let c6 := F_G_Mix S.k06 S.k16 S.k26 S.k36
  let c7 := F_G_Mix S.k07 S.k17 S.k27 S.k37
  let r0a := F_G_Mix c0.1 c1.1 c2.1 c3.1
  let r0b := F_G_Mix c4.1 c5.1 c6.1 c7.1
  let r1a := F_G_Mix c1.2.1 c2.2.1 c3.2.1 c4.2.1
  let r1b := F_G_Mix c5.2.1 c6.2.1 c7.2.1 c0.2.1
  let r2a := F_G_Mix c2.2.2.1 c3.2.2.1 c4.2.2.1 c5.2.2.1
  let r2b := F_G_Mix c6.2.2.1 c7.2.2.1 c0.2.2.1 c1.2.2.1
  let r3a := F_G_Mix c3.2.2.2 c4.2.2.2 c5.2.2.2 c6.2.2.2
  let r3b := F_G_Mix c7.2.2.2 c0.2.2.2 c1.2.2.2 c2.2.2.2
  ⟨r0a.1, r0a.2.1, r0a.2.2.1, r0a.2.2.2, r0b.1, r0b.2.1, r0b.2.2.1, r0b.2.2.2,
   r1b.2.2.2, r1a.1, r1a.2.1, r1a.2.2.1, r1a.2.2.2, r1b.1, r1b.2.1, r1b.2.2.1,
   r2b.2.2.1, r2b.2.2.2, r2a.1, r2a.2.1, r2a.2.2.1, r2a.2.2.2, r2b.1, r2b.2.1,
   r3b.2.1, r3b.2.2.1, r3b.2.2.2, r3a.1, r3a.2.1, r3a.2.2.1, r3a.2.2.2, r3b.1⟩

/-- C `F_perm`: sixteen rounds of `F_perm_Round`, `r = 0..15`. -/
def F_perm (S : KS) : KS := (List.range 16).foldl F_perm_Round S

/-- Initial key-schedule state: row 0 holds the 8 little-endian master-key
words `load_le32(master_key + 4*j)`; rows 1..3 hold `C_INIT[(i-1)*8+j]`. -/
def initKSS (mk : Nat → Nat) : KS :=
  ⟨load_le32 mk 0, load_le32 mk 4, load_le32 mk 8, load_le32 mk 12, load_le32 mk 16, load_le32 mk 20, load_le32 mk 24, load_le32 mk 28,
   C_INIT.getD 0 0, C_INIT.getD 1 0, C_INIT.getD 2 0, C_INIT.getD 3 0, C_INIT.getD 4 0, C_INIT.getD 5 0, C_INIT.getD 6 0, C_INIT.getD 7 0,
   C_INIT.getD 8 0, C_INIT.getD 9 0, C_INIT.getD 10 0, C_INIT.getD 11 0, C_INIT.getD 12 0, C_INIT.getD 13 0, C_INIT.getD 14 0, C_INIT.getD 15 0,
   C_INIT.getD 16 0, C_INIT.getD 17 0, C_INIT.getD 18 0, C_INIT.getD 19 0, C_INIT.getD 20 0, C_INIT.getD 21 0, C_INIT.getD 22 0, C_INIT.getD 23 0⟩

/-- Squeeze copy: `subkeys[i][r][c] = KSS[r][c]` for `r, c < 4` (the first
four columns of all four rows). -/
def subkeyOf (S : KS) : St :=
  ⟨S.k00, S.k01, S.k02, S.k03, S.k10, S.k11, S.k12, S.k13,
   S.k20, S.k21, S.k22, S.k23, S.k30, S.k31, S.k32, S.k33⟩

/-- Squeeze counter perturbation: `KSS[0][7] += i+1; KSS[1][3] += i+1;
KSS[2][6] += i+1; KSS[3][1] += i+1` (truncating `uint32_t` addition). -/
def perturbKSS (S : KS) (i : Nat) : KS :=
  ⟨S.k00, S.k01, S.k02, S.k03, S.k04, S.k05, S.k06, add32 S.k07 (i + 1),
   S.k10, S.k11, S.k12, add32 S.k13 (i + 1), S.k14, S.k15, S.k16, S.k17,
   S.k20, S.k21, S.k22, S.k23, S.k24, S.k25, add32 S.k26 (i + 1), S.k27,
   S.k30, add32 S.k31 (i + 1), S.k32, S.k33, S.k34, S.k35, S.k36, S.k37⟩

/-- Domain-separation injection: `KSS[r][c] ^= KSC[i*32 + r*8 + c]`. -/
def xorKSC (S : KS) (i : Nat) : KS :=
  ⟨S.k00 ^^^ KSC.getD (i * 32 + 0) 0, S.k01 ^^^ KSC.getD (i * 32 + 1) 0, S.k02 ^^^ KSC.getD (i * 32 + 2) 0, S.k03 ^^^ KSC.getD (i * 32 + 3) 0, S.k04 ^^^ KSC.getD (i * 32 + 4) 0, S.k05 ^^^ KSC.getD (i * 32 + 5) 0, S.k06 ^^^ KSC.getD (i * 32 + 6) 0, S.k07 ^^^ KSC.getD (i * 32 + 7) 0,
   S.k10 ^^^ KSC.getD (i * 32 + 8) 0, S.k11 ^^^ KSC.getD (i * 32 + 9) 0, S.k12 ^^^ KSC.getD (i * 32 + 10) 0, S.k13 ^^^ KSC.getD (i * 32 + 11) 0, S.k14 ^^^ KSC.getD (i * 32 + 12) 0, S.k15 ^^^ KSC.getD (i * 32 + 13) 0, S.k16 ^^^ KSC.getD (i * 32 + 14) 0, S.k17 ^^^ KSC.getD (i * 32 + 15) 0,
   S.k20 ^^^ KSC.getD (i * 32 + 16) 0, S.k21 ^^^ KSC.getD (i * 32 + 17) 0, S.k22 ^^^ KSC.getD (i * 32 + 18) 0, S.k23 ^^^ KSC.getD (i * 32 + 19) 0, S.k24 ^^^ KSC.getD (i * 32 + 20) 0, S.k25 ^^^ KSC.getD (i * 32 + 21) 0, S.k26 ^^^ KSC.getD (i * 32 + 22) 0, S.k27 ^^^ KSC.getD (i * 32 + 23) 0,
   S.k30 ^^^ KSC.getD (i * 32 + 24) 0, S.k31 ^^^ KSC.getD (i * 32 + 25) 0, S.k32 ^^^ KSC.getD (i * 32 + 26) 0, S.k33 ^^^ KSC.getD (i * 32 + 27) 0, S.k34 ^^^ KSC.getD (i * 32 + 28) 0, S.k35 ^^^ KSC.getD (i * 32 + 29) 0, S.k36 ^^^ KSC.getD (i * 32 + 30) 0, S.k37 ^^^ KSC.getD (i * 32 + 31) 0⟩

/-- One squeeze transition (the `if (i < 23)` body of the squeeze loop):
perturb with the counter `i+1`, xor the KSC chunk for step `i`, re-run the
permutation. -/
def ksStep (S : KS) (i : Nat) : KS := F_perm (xorKSC (perturbKSS S i) i)

/-- Squeeze loop producing `n` subkeys starting at step index `i`: each step
copies the first 4 columns, and every step except the last one also runs the
perturb / domain-separation / `F_perm` transition (so no permutation runs
after the final subkey is produced). -/
def squeeze : KS → Nat → Nat → List St
  | _, _, 0 => []
  | S, _, 1 => [subkeyOf S]
  | S, i, n + 2 => subkeyOf S :: squeeze (ksStep S i) (i + 1) (n + 1)

/-- C `Charybdis_KeySchedule`: absorb (initial `F_perm`) then squeeze the 24
subkeys. -/
def Charybdis_KeySchedule (mk : Nat → Nat) : List St :=
  squeeze (F_perm (initKSS mk)) 0 24

/-- Subkey array accessor used to feed `Charybdis_EncryptBlock`. -/
def subkeysOf (mk : Nat → Nat) : Nat → St :=
  fun r => (Charybdis_KeySchedule mk).getD r stZero

/-- Claim C5: `Charybdis_KeySchedule` is a pure function of the 32 master-key
bytes alone: any two key buffers that agree on bytes 0..31 produce the same
24-subkey schedule (there is no other input or state in the model). -/
theorem Charybdis_KeySchedule_deterministic (k1 k2 : Nat → Nat)
    (h : ∀ i < 32, k1 i = k2 i) :
    Charybdis_KeySchedule k1 = Charybdis_KeySchedule k2 := by
  have hinit : initKSS k1 = initKSS k2 := by
    unfold initKSS load_le32
    simp only [h 0 (by norm_num), h 1 (by norm_num), h 2 (by norm_num), h 3 (by norm_num), h 4 (by norm_num), h 5 (by norm_num), h 6 (by norm_num), h 7 (by norm_num), h 8 (by norm_num), h 9 (by norm_num), h 10 (by norm_num), h 11 (by norm_num), h 12 (by norm_num), h 13 (by norm_num), h 14 (by norm_num), h 15 (by norm_num), h 16 (by norm_num), h 17 (by norm_num), h 18 (by norm_num), h 19 (by norm_num), h 20 (by norm_num), h 21 (by norm_num), h 22 (by norm_num), h 23 (by norm_num), h 24 (by norm_num), h 25 (by norm_num), h 26 (by norm_num), h 27 (by norm_num), h 28 (by norm_num), h 29 (by norm_num), h 30 (by norm_num), h 31 (by norm_num)]
  unfold Charybdis_KeySchedule
  rw [hinit]

/-- Witness for claim C5 at two syntactically distinct but pointwise equal
zero key buffers. -/
theorem Charybdis_KeySchedule_deterministic_witness :
    Charybdis_KeySchedule (fun _ => 0) = Charybdis_KeySchedule (fun i => i - i) :=
  Charybdis_KeySchedule_deterministic (fun _ => 0) (fun i => i - i)
    (fun i _ => by simp)

/-! ## Self-test vector (claim C4): key bytes 0x00..0x1F, plaintext pattern
0x00 0x11 .. 0xFF repeated; intermediate key-schedule states are pinned as
literals so each kernel evaluation step stays shallow. -/

/-- Self-test master key bytes 0x00..0x1F ascending (only offsets 0..31 are read). -/
def selftest_key : Nat → Nat := fun i => i

/-- Self-test plaintext: the repeating 16-byte pattern 0x00 0x11 0x22 .. 0xFF. -/
def selftest_pt : Nat → Nat := fun i => 17 * (i % 16)

/-- Key-schedule state before squeeze step 0 for the self-test key. -/
def ksS0 : KS :=
  ⟨1160043699, 1115339074, 123949061, 4135699012, 2925221853, 2874732133, 3415955900, 1475879147,
   3206482671, 1338385832, 640226114, 919970832, 1162960090, 4132612736, 977894553, 3918521537,
   2318561938, 2591679597, 665887228, 3650385771, 3780036588, 1143222344, 2506820588, 1118728607,
   1564722487, 309758541, 1723705904, 4040258204, 1943660393, 2684374612, 2619796074, 3872200109⟩

/-- Key-schedule state before squeeze step 1 for the self-test key. -/
def ksS1 : KS :=
  ⟨4129376515, 1060036218, 967500303, 2146132705, 3593383305, 3415923104, 1957417669, 1677523098,
   1679937186, 4196823854, 3893080862, 1657246627, 450727735, 1762092053, 3643760406, 2798315470,
   3572471981, 1202305633, 806172405, 506383819, 1331952067, 1321855069, 3408436028, 428553944,
   3271968386, 1925232034, 463024918, 3907814352, 3083362283, 632024136, 958598622, 1093411222⟩

/-- Key-schedule state before squeeze step 2 for the self-test key. -/
def ksS2 : KS :=
  ⟨3618760350, 2776313523, 4017919353, 3252230896, 118077144, 3565945361, 1880489869, 1398324559,
   2577563794, 34198207, 470586162, 65454174, 3333687378, 1197150761, 1489307138, 3038654235,
   483505217, 2275152690, 4135069399, 226049279, 3925112798, 3815128052, 3861674731, 3126274403,
   209508304, 2233672225, 2606746252, 1671360389, 1487211186, 2739375134, 1395379314, 1626980035⟩

/-- Key-schedule state before squeeze step 3 for the self-test key. -/
def ksS3 : KS :=
  ⟨3066375116, 3954445604, 2810858638, 2439553723, 3987888455, 1143424198, 3249470232, 1122532081,
   2924582595, 2666073757, 3619770295, 2792036857, 158360867, 2166578098, 4011726943, 113729294,
   3878924166, 2856754869, 1117067411, 3705348520, 647667687, 626404301, 2733475765, 1846037548,
   3553453091, 2579908694, 2805706984, 22015334, 2409764476, 3558424499, 1768957553, 3152255381⟩

/-- Key-schedule state before squeeze step 4 for the self-test key. -/
def ksS4 : KS :=
  ⟨3586480397, 204720359, 698400568, 189253708, 1857980126, 3182611488, 3153768998, 2993067957,
   4215221594, 1090283731, 2666535495, 3601539237, 195948413, 2960953686, 2628360437, 2999642689,
   2349101172, 2409416523, 1756466764, 2139708119, 1674594011, 2371868562, 556413977, 3004753792,
   2959031089, 1637705110, 2671563793, 412041085, 3467225457, 3221683758, 2710890532, 2426695657⟩

/-- Key-schedule state before squeeze step 5 for the self-test key. -/
def ksS5 : KS :=
  ⟨2157582804, 69660220, 2559682289, 228543656, 448353848, 1117228806, 3919281780, 1124582512,
   2428643689, 2158475800, 2939587773, 1523903837, 2476413944, 2366309163, 1726595768, 3345965404,
   2632328160, 3576825482, 1304227076, 2428426171, 3241807302, 1065794241, 3354056239, 739817467,
   1206704506, 2321062533, 3163961950, 431531977, 4141120918, 650024933, 4265868593, 3297443875⟩

/-- Key-schedule state before squeeze step 6 for the self-test key. -/
def ksS6 : KS :=
  ⟨1354774981, 3985495934, 1198945113, 1546514495, 1482443903, 3553454989, 4034922500, 3295893814,
   1846990934, 2570793696, 3055067057, 1643048116, 3089704088, 769981325, 2871910101, 51246536,
   3363203665, 3939008672, 2128745758, 3511313375, 2391341796, 3030171234, 1134231136, 2371903531,
   1064894093, 3432104315, 4029978960, 855137114, 319843425, 2235420640, 1415709311, 1044764903⟩

/-- Key-schedule state before squeeze step 7 for the self-test key. -/
def ksS7 : KS :=
  ⟨3153768620, 2994962289, 912626366, 3310772672, 15206356, 3420443187, 3636259858, 2793728045,
   820279329, 3012329763, 3891290754, 226237309, 1848209130, 1517491401, 3274897467, 1353344531,
   1180466864, 2765770998, 3177953681, 823651704, 1954629572, 1887926253, 1948649744, 1942630764,
   1698812334, 629217034, 2312763162, 4208325147, 965433895, 390943169, 1793577968, 758056307⟩

/-- Key-schedule state before squeeze step 8 for the self-test key. -/
def ksS8 : KS :=
  ⟨978286795, 902322657, 860138423, 4275967184, 1188507963, 2865347248, 2656802888, 545876741,
   3458458010, 33238946, 3632564495, 3057209752, 1154582036, 1555011471, 1161037798, 741504684,
   270010414, 2366823474, 980148227, 380276408, 937121032, 4113906850, 3511402301, 3543287099,
   4157993205, 1603658361, 1431415002, 2483195945, 1372215121, 3502483506, 3743366363, 1695771004⟩

/-- Key-schedule state before squeeze step 9 for the self-test key. -/
def ksS9 : KS :=
  ⟨4245143047, 1415175915, 3374117741, 1599146028, 3653100353, 3085061729, 2518992403, 3241769630,
   595997310, 691504907, 3159415080, 3916517429, 884256715, 1127286620, 3302840142, 1689971833,
   2096405988, 201103487, 2779556897, 1025041844, 402488669, 224935701, 87387493, 2085626953,
   2301132156, 3458759534, 2434062950, 2242416144, 920598410, 1088869965, 2433461093, 4010298239⟩

/-- Key-schedule state before squeeze step 10 for the self-test key. -/
def ksS10 : KS :=
  ⟨3574385783, 2868102004, 2535401577, 3185603404, 3526973015, 2944577199, 1946815573, 3485035473,
   3219499981, 2776383341, 2205846272, 855554617, 1251756128, 2088112714, 2350084255, 2525794644,
   3532378439, 402047240, 2333094304, 3698393780, 1410497831, 1607704395, 338304403, 1223624063,
   1697253762, 3768065642, 2758663970, 1166351770, 2546175114, 2803369805, 2255231653, 3739142611⟩

/-- Key-schedule state before squeeze step 11 for the self-test key. -/
def ksS11 : KS :=
  ⟨1458671203, 169356064, 2176755881, 3858220957, 777880298, 3159606935, 3901516810, 3402921667,
   2377598697, 1386591535, 3636298952, 3112524407, 1310051838, 4150688350, 1445385076, 3124278354,
   861442010, 3499834477, 148553858, 1208299052, 4175927288, 1952126103, 2237180848, 3729592004,
   2017067265, 4028972529, 3590110536, 2769739805, 3847156160, 3845347154, 2349269892, 3043249992⟩

/-- Key-schedule state before squeeze step 12 for the self-test key. -/
def ksS12 : KS :=
  ⟨1656608511, 1843787581, 290264087, 3662589621, 1502230175, 1927893709, 88773709, 1817508892,
   3453368253, 155366081, 3222021596, 4246237929, 259256031, 820227242, 165500432, 2849566146,
   691158079, 2433276168, 1224535049, 1518169227, 1623637659, 672311123, 2149757483, 3934016850,
   2826239170, 2279288200, 3714077873, 3461343303, 2025449672, 3562817579, 1938602471, 1851678642⟩

/-- Key-schedule state before squeeze step 13 for the self-test key. -/
def ksS13 : KS :=
  ⟨289410280, 2463647321, 1913759817, 2221748596, 3444532904, 858613793, 2374142760, 21392534,
   4214426480, 2744004968, 2898943617, 2083599855, 3680244205, 3714741682, 1125694897, 3497480243,
   2122762121, 2105081946, 2101983863, 1454585331, 3567139754, 224049940, 2466394583, 4104073343,
   333763211, 3237208265, 2099683052, 3596615005, 1062081119, 3059653015, 360720477, 2244357863⟩

/-- Key-schedule state before squeeze step 14 for the self-test key. -/
def ksS14 : KS :=
  ⟨3023124466, 3229203503, 4111634426, 4163258820, 1669370456, 2724206255, 2662009957, 3520950363,
   1049104231, 2032019660, 1711430276, 2487820484, 1756470578, 945921390, 2340238674, 2702196390,
   3354073048, 1210559830, 2407018358, 2728000198, 2337586581, 4113130614, 1923307376, 861398257,
   2759996419, 2857525535, 3061544947, 4186998125, 1192686771, 78201103, 2709098337, 3810424656⟩

/-- Key-schedule state before squeeze step 15 for the self-test key. -/
def ksS15 : KS :=
  ⟨162929931, 2584472957, 688086283, 3771749889, 1088432208, 2273897540, 2271425249, 65436112,
   3293599149, 3168599552, 95919910, 610316026, 1985353162, 1743220091, 643159869, 2264634121,
   2705936929, 238673049, 4194423592, 2270874108, 26680815, 2982291781, 2504220325, 3162294228,
   2940730925, 1821203608, 1874703028, 169545723, 3236030502, 1870229103, 3281225027, 4049283680⟩

/-- Key-schedule state before squeeze step 16 for the self-test key. -/
def ksS16 : KS :=
  ⟨3881105942, 1149530529, 123049532, 2885791936, 2067212943, 3253565644, 4249799546, 3823844972,
   3960044776, 4150468353, 414161699, 1007696549, 1409795379, 566109420, 1486034979, 1593836295,
   3658796593, 2229786618, 21616570, 136621625, 3519744518, 391818560, 1992162721, 2556055886,
   984359205, 3526088236, 681225892, 520441728, 440627103, 4222893074, 2008679036, 2805397995⟩

/-- Key-schedule state before squeeze step 17 for the self-test key. -/
def ksS17 : KS :=
  ⟨2141839243, 4274896966, 1811437232, 83317451, 1982335104, 2525932263, 829848252, 4167485937,
   2843940930, 4293890352, 308335797, 459740590, 850570706, 622169554, 3105646666, 4057752713,
   3429464527, 97725554, 1732479914, 3930681317, 3524090214, 2137386876, 3798135112, 1697143830,
   1945776732, 1304885820, 46002340, 2457757690, 2388689453, 544258586, 3572328463, 1958352332⟩

/-- Key-schedule state before squeeze step 18 for the self-test key. -/
def ksS18 : KS :=
  ⟨1633765277, 1045728140, 1354295920, 712869721, 2231280445, 112876969, 3354278405, 2104659645,
   895078032, 2711751135, 4284891657, 1242100824, 2379261451, 238195517, 1130736431, 315002198,
   1263309731, 2881172361, 76082052, 866314715, 2152806374, 2530732447, 650724716, 1433638034,
   2140255418, 2714683992, 1033328985, 1344949298, 804016703, 4266245835, 552306925, 3971507036⟩

/-- Key-schedule state before squeeze step 19 for the self-test key. -/
def ksS19 : KS :=
  ⟨3477258566, 309063545, 3037813396, 971030991, 2676926730, 2867325211, 765637926, 1229394201,
   1303337084, 2009980661, 2249081021, 1414727445, 2962656516, 2037862535, 2552863130, 67652726,
   4252927921, 1984087940, 3655172821, 3066192995, 2934609243, 2181179516, 2997013467, 1049112755,
   4121177208, 2049456642, 1269526040, 3683181779, 3426997258, 3689238255, 1492660695, 2992184055⟩

/-- Key-schedule state before squeeze step 20 for the self-test key. -/
def ksS20 : KS :=
  ⟨2133845217, 500939828, 4112404313, 15924588, 2703508925, 416711203, 1568608301, 1048588524,
   1730061891, 3725157655, 1794681819, 3694572326, 2800434560, 4255681423, 1265744504, 2529072039,
   976705750, 3067667091, 1690503627, 2521987335, 3380256892, 2392879738, 2846709868, 2909451876,
   4267488995, 1676687853, 2601792897, 3304853976, 2640936664, 2124891265, 3643158176, 4251397170⟩

/-- Key-schedule state before squeeze step 21 for the self-test key. -/
def ksS21 : KS :=
  ⟨3517393652, 1963911848, 1449013466, 3116748403, 3448692907, 1527889738, 3615582929, 2167776858,
   412333361, 1164808474, 3401894794, 293657489, 3705167929, 278564928, 3264368377, 195638310,
   3712196506, 2911309441, 3188999240, 3163407042, 1255109957, 2836490596, 2316390773, 3651995200,
   2537973025, 1563386074, 565250779, 301446459, 2535524048, 2951950963, 2568888076, 4171361983⟩

/-- Key-schedule state before squeeze step 22 for the self-test key. -/
def ksS22 : KS :=
  ⟨271251005, 4246406362, 3827788521, 4219679430, 3504348415, 3792625346, 3555796637, 801718543,
   3356171260, 137121154, 4252191674, 1770678934, 2732042982, 2815006015, 1965698348, 824839967,
   3059932793, 1347771611, 4010061949, 1040733679, 1550181110, 1460392250, 3706354075, 2810675958,
   3788382739, 1916642417, 167928712, 473090920, 975069828, 4077234967, 3206840293, 2197504549⟩

/-- Key-schedule state before squeeze step 23 for the self-test key. -/
def ksS23 : KS :=
  ⟨124426517, 1535018191, 1097655525, 4107770327, 787641507, 780287284, 3943236678, 120167474,
   4123068772, 3607467285, 2876654480, 2762639614, 2766028327, 4239999870, 2286462995, 3581946039,
   2272838049, 3952698059, 2134787211, 2700835976, 2296619549, 1995935465, 3374106336, 4087842372,
   1241881085, 857464536, 4263141410, 3645623698, 952398488, 684658376, 653665126, 395805957⟩

set_option maxRecDepth 20000 in
theorem ksChain0 : F_perm (initKSS selftest_key) = ksS0 := by decide

set_option maxRecDepth 20000 in
theorem ksChain1 : ksStep ksS0 0 = ksS1 := by decide

set_option maxRecDepth 20000 in
theorem ksChain2 : ksStep ksS1 1 = ksS2 := by decide

set_option maxRecDepth 20000 in
theorem ksChain3 : ksStep ksS2 2 = ksS3 := by decide

set_option maxRecDepth 20000 in
theorem ksChain4 : ksStep ksS3 3 = ksS4 := by decide

set_option maxRecDepth 20000 in
theorem ksChain5 : ksStep ksS4 4 = ksS5 := by decide

set_option maxRecDepth 20000 in
theorem ksChain6 : ksStep ksS5 5 = ksS6 := by decide

set_option maxRecDepth 20000 in
theorem ksChain7 : ksStep ksS6 6 = ksS7 := by decide

set_option maxRecDepth 20000 in
theorem ksChain8 : ksStep ksS7 7 = ksS8 := by decide

set_option maxRecDepth 20000 in
theorem ksChain9 : ksStep ksS8 8 = ksS9 := by decide

set_option maxRecDepth 20000 in
theorem ksChain10 : ksStep ksS9 9 = ksS10 := by decide

set_option maxRecDepth 20000 in
theorem ksChain11 : ksStep ksS10 10 = ksS11 := by decide

set_option maxRecDepth 20000 in
theorem ksChain12 : ksStep ksS11 11 = ksS12 := by decide

set_option maxRecDepth 20000 in
theorem ksChain13 : ksStep ksS12 12 = ksS13 := by decide

set_option maxRecDepth 20000 in
theorem ksChain14 : ksStep ksS13 13 = ksS14 := by decide

set_option maxRecDepth 20000 in
theorem ksChain15 : ksStep ksS14 14 = ksS15 := by decide

set_option maxRecDepth 20000 in
theorem ksChain16 : ksStep ksS15 15 = ksS16 := by decide

set_option maxRecDepth 20000 in
theorem ksChain17 : ksStep ksS16 16 = ksS17 := by decide

set_option maxRecDepth 20000 in
theorem ksChain18 : ksStep ksS17 17 = ksS18 := by decide

set_option maxRecDepth 20000 in
theorem ksChain19 : ksStep ksS18 18 = ksS19 := by decide

set_option maxRecDepth 20000 in
theorem ksChain20 : ksStep ksS19 19 = ksS20 := by decide

set_option maxRecDepth 20000 in
theorem ksChain21 : ksStep ksS20 20 = ksS21 := by decide

set_option maxRecDepth 20000 in
theorem ksChain22 : ksStep ksS21 21 = ksS22 := by decide

set_option maxRecDepth 20000 in
theorem ksChain23 : ksStep ksS22 22 = ksS23 := by decide

/-- The 24 subkeys of the self-test key, as squeeze copies of the pinned
key-schedule states. -/
def selftest_skList : List St := [subkeyOf ksS0, subkeyOf ksS1, subkeyOf ksS2, subkeyOf ksS3, subkeyOf ksS4, subkeyOf ksS5, subkeyOf ksS6, subkeyOf ksS7, subkeyOf ksS8, subkeyOf ksS9, subkeyOf ksS10, subkeyOf ksS11, subkeyOf ksS12, subkeyOf ksS13, subkeyOf ksS14, subkeyOf ksS15, subkeyOf ksS16, subkeyOf ksS17, subkeyOf ksS18, subkeyOf ksS19, subkeyOf ksS20, subkeyOf ksS21, subkeyOf ksS22, subkeyOf ksS23]

theorem selftest_schedule : Charybdis_KeySchedule selftest_key = selftest_skList := by
  unfold Charybdis_KeySchedule selftest_skList
  rw [ksChain0]
  rw [show squeeze ksS0 0 24 = subkeyOf ksS0 :: squeeze (ksStep ksS0 0) 1 23 from rfl]
  rw [ksChain1]
  rw [show squeeze ksS1 1 23 = subkeyOf ksS1 :: squeeze (ksStep ksS1 1) 2 22 from rfl]
  rw [ksChain2]
  rw [show squeeze ksS2 2 22 = subkeyOf ksS2 :: squeeze (ksStep ksS2 2) 3 21 from rfl]
  rw [ksChain3]
  rw [show squeeze ksS3 3 21 = subkeyOf ksS3 :: squeeze (ksStep ksS3 3) 4 20 from rfl]
  rw [ksChain4]
  rw [show squeeze ksS4 4 20 = subkeyOf ksS4 :: squeeze (ksStep ksS4 4) 5 19 from rfl]
  rw [ksChain5]
  rw [show squeeze ksS5 5 19 = subkeyOf ksS5 :: squeeze (ksStep ksS5 5) 6 18 from rfl]
  rw [ksChain6]
  rw [show squeeze ksS6 6 18 = subkeyOf ksS6 :: squeeze (ksStep ksS6 6) 7 17 from rfl]
  rw [ksChain7]
  rw [show squeeze ksS7 7 17 = subkeyOf ksS7 :: squeeze (ksStep ksS7 7) 8 16 from rfl]
  rw [ksChain8]
  rw [show squeeze ksS8 8 16 = subkeyOf ksS8 :: squeeze (ksStep ksS8 8) 9 15 from rfl]
  rw [ksChain9]
  rw [show squeeze ksS9 9 15 = subkeyOf ksS9 :: squeeze (ksStep ksS9 9) 10 14 from rfl]
  rw [ksChain10]
  rw [show squeeze ksS10 10 14 = subkeyOf ksS10 :: squeeze (ksStep ksS10 10) 11 13 from rfl]
  rw [ksChain11]
  rw [show squeeze ksS11 11 13 = subkeyOf ksS11 :: squeeze (ksStep ksS11 11) 12 12 from rfl]
  rw [ksChain12]
  rw [show squeeze ksS12 12 12 = subkeyOf ksS12 :: squeeze (ksStep ksS12 12) 13 11 from rfl]
  rw [ksChain13]
  rw [show squeeze ksS13 13 11 = subkeyOf ksS13 :: squeeze (ksStep ksS13 13) 14 10 from rfl]
  rw [ksChain14]
  rw [show squeeze ksS14 14 10 = subkeyOf ksS14 :: squeeze (ksStep ksS14 14) 15 9 from rfl]
  rw [ksChain15]
  rw [show squeeze ksS15 15 9 = subkeyOf ksS15 :: squeeze (ksStep ksS15 15) 16 8 from rfl]
  rw [ksChain16]
  rw [show squeeze ksS16 16 8 = subkeyOf ksS16 :: squeeze (ksStep ksS16 16) 17 7 from rfl]
  rw [ksChain17]
  rw [show squeeze ksS17 17 7 = subkeyOf ksS17 :: squeeze (ksStep ksS17 17) 18 6 from rfl]
  rw [ksChain18]
  rw [show squeeze ksS18 18 6 = subkeyOf ksS18 :: squeeze (ksStep ksS18 18) 19 5 from rfl]
  rw [ksChain19]
  rw [show squeeze ksS19 19 5 = subkeyOf ksS19 :: squeeze (ksStep ksS19 19) 20 4 from rfl]
  rw [ksChain20]
  rw [show squeeze ksS20 20 4 = subkeyOf ksS20 :: squeeze (ksStep ksS20 20) 21 3 from rfl]
  rw [ksChain21]
  rw [show squeeze ksS21 21 3 = subkeyOf ksS21 :: squeeze (ksStep ksS21 21) 22 2 from rfl]
  rw [ksChain22]
  rw [show squeeze ksS22 22 2 = subkeyOf ksS22 :: squeeze (ksStep ksS22 22) 23 1 from rfl]
  rw [ksChain23]
  rw [show squeeze ksS23 23 1 = [subkeyOf ksS23] from rfl]

/-- The 64 hard-coded expected ciphertext bytes `expected_ct` of the C
self-test (`main` in `charybdis.c`). -/
def expected_ct : List Nat := [
  79, 39, 184, 191, 176, 80, 15, 166,
  122, 204, 205, 148, 100, 54, 222, 3,
  190, 148, 199, 190, 86, 224, 221, 103,
  176, 235, 102, 96, 95, 221, 70, 237,
  129, 33, 248, 149, 160, 175, 88, 46,
  24, 91, 69, 185, 48, 195, 120, 25,
  175, 72, 61, 178, 178, 162, 64, 109,
  203, 194, 125, 165, 203, 186, 187, 242]

set_option maxRecDepth 20000 in
/-- Claim C4: key schedule on the self-test master key followed by one block
encryption of the self-test plaintext yields exactly the hard-coded
`expected_ct` of the C self-test. -/
theorem selftest_ciphertext :
    blockBytes (Charybdis_EncryptBlock selftest_pt (subkeysOf selftest_key)) = expected_ct := by
  have hsub : subkeysOf selftest_key = fun r => selftest_skList.getD r stZero := by
    unfold subkeysOf
    rw [selftest_schedule]
  rw [hsub]
  decide

/-! ## Specification model of the key schedule (claim C3)

The definitions below re-state the key-schedule algorithm in the words of the
specification: generic loops over row and column indices, with the wraparound
row groups written as `(i + k) % 8`, acting through index-based access
`ksGet` / `ksSet` on the 4x8 state.  They are then proved extensionally equal
to the source embedding `Charybdis_KeySchedule`. -/

/-- Read `KSS[i][j]` by index. -/
def ksGet (S : KS) (i j : Nat) : Nat :=
  match i, j with
  | 0, 0 => S.k00
  | 0, 1 => S.k01
  | 0, 2 => S.k02
  | 0, 3 => S.k03
  | 0, 4 => S.k04
  | 0, 5 => S.k05
  | 0, 6 => S.k06
  | 0, 7 => S.k07
  | 1, 0 => S.k10
  | 1, 1 => S.k11
  | 1, 2 => S.k12
  | 1, 3 => S.k13
  | 1, 4 => S.k14
  | 1, 5 => S.k15
  | 1, 6 => S.k16
  | 1, 7 => S.k17
  | 2, 0 => S.k20
  | 2, 1 => S.k21
  | 2, 2 => S.k22
  | 2, 3 => S.k23
  | 2, 4 => S.k24
  | 2, 5 => S.k25
  | 2, 6 => S.k26
  | 2, 7 => S.k27
  | 3, 0 => S.k30
  | 3, 1 => S.k31
  | 3, 2 => S.k32
  | 3, 3 => S.k33
  | 3, 4 => S.k34
  | 3, 5 => S.k35
  | 3, 6 => S.k36
  | 3, 7 => S.k37
  | _, _ => 0

/-- Write `KSS[i][j]` by index. -/
def ksSet (S : KS) (i j v : Nat) : KS :=
  match i, j with
  | 0, 0 => ⟨v, S.k01, S.k02, S.k03, S.k04, S.k05, S.k06, S.k07, S.k10, S.k11, S.k12, S.k13, S.k14, S.k15, S.k16, S.k17, S.k20, S.k21, S.k22, S.k23, S.k24, S.k25, S.k26, S.k27, S.k30, S.k31, S.k32, S.k33, S.k34, S.k35, S.k36, S.k37⟩
  | 0, 1 => ⟨S.k00, v, S.k02, S.k03, S.k04, S.k05, S.k06, S.k07, S.k10, S.k11, S.k12, S.k13, S.k14, S.k15, S.k16, S.k17, S.k20, S.k21, S.k22, S.k23, S.k24, S.k25, S.k26, S.k27, S.k30, S.k31, S.k32, S.k33, S.k34, S.k35, S.k36, S.k37⟩
  | 0, 2 => ⟨S.k00, S.k01, v, S.k03, S.k04, S.k05, S.k06, S.k07, S.k10, S.k11, S.k12, S.k13, S.k14, S.k15, S.k16, S.k17, S.k20, S.k21, S.k22, S.k23, S.k24, S.k25, S.k26, S.k27, S.k30, S.k31, S.k32, S.k33, S.k34, S.k35, S.k36, S.k37⟩
  | 0, 3 => ⟨S.k00, S.k01, S.k02, v, S.k04, S.k05, S.k06, S.k07, S.k10, S.k11, S.k12, S.k13, S.k14, S.k15, S.k16, S.k17, S.k20, S.k21, S.k22, S.k23, S.k24, S.k25, S.k26, S.k27, S.k30, S.k31, S.k32, S.k33, S.k34, S.k35, S.k36, S.k37⟩
  | 0, 4 => ⟨S.k00, S.k01, S.k02, S.k03, v, S.k05, S.k06, S.k07, S.k10, S.k11, S.k12, S.k13, S.k14, S.k15, S.k16, S.k17, S.k20, S.k21, S.k22, S.k23, S.k24, S.k25, S.k26, S.k27, S.k30, S.k31, S.k32, S.k33, S.k34, S.k35, S.k36, S.k37⟩
  | 0, 5 => ⟨S.k00, S.k01, S.k02, S.k03, S.k04, v, S.k06, S.k07, S.k10, S.k11, S.k12, S.k13, S.k14, S.k15, S.k16, S.k17, S.k20, S.k21, S.k22, S.k23, S.k24, S.k25, S.k26, S.k27, S.k30, S.k31, S.k32, S.k33, S.k34, S.k35, S.k36, S.k37⟩
  | 0, 6 => ⟨S.k00, S.k01, S.k02, S.k03, S.k04, S.k05, v, S.k07, S.k10, S.k11, S.k12, S.k13, S.k14, S.k15, S.k16, S.k17, S.k20, S.k21, S.k22, S.k23, S.k24, S.k25, S.k26, S.k27, S.k30, S.k31, S.k32, S.k33, S.k34, S.k35, S.k36, S.k37⟩
  | 0, 7 => ⟨S.k00, S.k01, S.k02, S.k03, S.k04, S.k05, S.k06, v, S.k10, S.k11, S.k12, S.k13, S.k14, S.k15, S.k16, S.k17, S.k20, S.k21, S.k22, S.k23, S.k24, S.k25, S.k26, S.k27, S.k30, S.k31, S.k32, S.k33, S.k34, S.k35, S.k36, S.k37⟩
  | 1, 0 => ⟨S.k00, S.k01, S.k02, S.k03, S.k04, S.k05, S.k06, S.k07, v, S.k11, S.k12, S.k13, S.k14, S.k15, S.k16, S.k17, S.k20, S.k21, S.k22, S.k23, S.k24, S.k25, S.k26, S.k27, S.k30, S.k31, S.k32, S.k33, S.k34, S.k35, S.k36, S.k37⟩
  | 1, 1 => ⟨S.k00, S.k01, S.k02, S.k03, S.k04, S.k05, S.k06, S.k07, S.k10, v, S.k12, S.k13, S.k14, S.k15, S.k16, S.k17, S.k20, S.k21, S.k22, S.k23, S.k24, S.k25, S.k26, S.k27, S.k30, S.k31, S.k32, S.k33, S.k34, S.k35, S.k36, S.k37⟩
  | 1, 2 => ⟨S.k00, S.k01, S.k02, S.k03, S.k04, S.k05, S.k06, S.k07, S.k10, S.k11, v, S.k13, S.k14, S.k15, S.k16, S.k17, S.k20, S.k21, S.k22, S.k23, S.k24, S.k25, S.k26, S.k27, S.k30, S.k31, S.k32, S.k33, S.k34, S.k35, S.k36, S.k37⟩
  | 1, 3 => ⟨S.k00, S.k01, S.k02, S.k03, S.k04, S.k05, S.k06, S.k07, S.k10, S.k11, S.k12, v, S.k14, S.k15, S.k16, S.k17, S.k20, S.k21, S.k22, S.k23, S.k24, S.k25, S.k26, S.k27, S.k30, S.k31, S.k32, S.k33, S.k34, S.k35, S.k36, S.k37⟩
  | 1, 4 => ⟨S.k00, S.k01, S.k02, S.k03, S.k04, S.k05, S.k06, S.k07, S.k10, S.k11, S.k12, S.k13, v, S.k15, S.k16, S.k17, S.k20, S.k21, S.k22, S.k23, S.k24, S.k25, S.k26, S.k27, S.k30, S.k31, S.k32, S.k33, S.k34, S.k35, S.k36, S.k37⟩
  | 1, 5 => ⟨S.k00, S.k01, S.k02, S.k03, S.k04, S.k05, S.k06, S.k07, S.k10, S.k11, S.k12, S.k13, S.k14, v, S.k16, S.k17, S.k20, S.k21, S.k22, S.k23, S.k24, S.k25, S.k26, S.k27, S.k30, S.k31, S.k32, S.k33, S.k34, S.k35, S.k36, S.k37⟩
  | 1, 6 => ⟨S.k00, S.k01, S.k02, S.k03, S.k04, S.k05, S.k06, S.k07, S.k10, S.k11, S.k12, S.k13, S.k14, S.k15, v, S.k17, S.k20, S.k21, S.k22, S.k23, S.k24, S.k25, S.k26, S.k27, S.k30, S.k31, S.k32, S.k33, S.k34, S.k35, S.k36, S.k37⟩
  | 1, 7 => ⟨S.k00, S.k01, S.k02, S.k03, S.k04, S.k05, S.k06, S.k07, S.k10, S.k11, S.k12, S.k13, S.k14, S.k15, S.k16, v, S.k20, S.k21, S.k22, S.k23, S.k24, S.k25, S.k26, S.k27, S.k30, S.k31, S.k32, S.k33, S.k34, S.k35, S.k36, S.k37⟩
  | 2, 0 => ⟨S.k00, S.k01, S.k02, S.k03, S.k04, S.k05, S.k06, S.k07, S.k10, S.k11, S.k12, S.k13, S.k14, S.k15, S.k16, S.k17, v, S.k21, S.k22, S.k23, S.k24, S.k25, S.k26, S.k27, S.k30, S.k31, S.k32, S.k33, S.k34, S.k35, S.k36, S.k37⟩
  | 2, 1 => ⟨S.k00, S.k01, S.k02, S.k03, S.k04, S.k05, S.k06, S.k07, S.k10, S.k11, S.k12, S.k13, S.k14, S.k15, S.k16, S.k17, S.k20, v, S.k22, S.k23, S.k24, S.k25, S.k26, S.k27, S.k30, S.k31, S.k32, S.k33, S.k34, S.k35, S.k36, S.k37⟩
  | 2, 2 => ⟨S.k00, S.k01, S.k02, S.k03, S.k04, S.k05, S.k06, S.k07, S.k10, S.k11, S.k12, S.k13, S.k14, S.k15, S.k16, S.k17, S.k20, S.k21, v, S.k23, S.k24, S.k25, S.k26, S.k27, S.k30, S.k31, S.k32, S.k33, S.k34, S.k35, S.k36, S.k37⟩
  | 2, 3 => ⟨S.k00, S.k01, S.k02, S.k03, S.k04, S.k05, S.k06, S.k07, S.k10, S.k11, S.k12, S.k13, S.k14, S.k15, S.k16, S.k17, S.k20, S.k21, S.k22, v, S.k24, S.k25, S.k26, S.k27, S.k30, S.k31, S.k32, S.k33, S.k34, S.k35, S.k36, S.k37⟩
  | 2, 4 => ⟨S.k00, S.k01, S.k02, S.k03, S.k04, S.k05, S.k06, S.k07, S.k10, S.k11, S.k12, S.k13, S.k14, S.k15, S.k16, S.k17, S.k20, S.k21, S.k22, S.k23, v, S.k25, S.k26, S.k27, S.k30, S.k31, S.k32, S.k33, S.k34, S.k35, S.k36, S.k37⟩
  | 2, 5 => ⟨S.k00, S.k01, S.k02, S.k03, S.k04, S.k05, S.k06, S.k07, S.k10, S.k11, S.k12, S.k13, S.k14, S.k15, S.k16, S.k17, S.k20, S.k21, S.k22, S.k23, S.k24, v, S.k26, S.k27, S.k30, S.k31, S.k32, S.k33, S.k34, S.k35, S.k36, S.k37⟩
  | 2, 6 => ⟨S.k00, S.k01, S.k02, S.k03, S.k04, S.k05, S.k06, S.k07, S.k10, S.k11, S.k12, S.k13, S.k14, S.k15, S.k16, S.k17, S.k20, S.k21, S.k22, S.k23, S.k24, S.k25, v, S.k27, S.k30, S.k31, S.k32, S.k33, S.k34, S.k35, S.k36, S.k37⟩
  | 2, 7 => ⟨S.k00, S.k01, S.k02, S.k03, S.k04, S.k05, S.k06, S.k07, S.k10, S.k11, S.k12, S.k13, S.k14, S.k15, S.k16, S.k17, S.k20, S.k21, S.k22, S.k23, S.k24, S.k25, S.k26, v, S.k30, S.k31, S.k32, S.k33, S.k34, S.k35, S.k36, S.k37⟩
  | 3, 0 => ⟨S.k00, S.k01, S.k02, S.k03, S.k04, S.k05, S.k06, S.k07, S.k10, S.k11, S.k12, S.k13, S.k14, S.k15, S.k16, S.k17, S.k20, S.k21, S.k22, S.k23, S.k24, S.k25, S.k26, S.k27, v, S.k31, S.k32, S.k33, S.k34, S.k35, S.k36, S.k37⟩
  | 3, 1 => ⟨S.k00, S.k01, S.k02, S.k03, S.k04, S.k05, S.k06, S.k07, S.k10, S.k11, S.k12, S.k13, S.k14, S.k15, S.k16, S.k17, S.k20, S.k21, S.k22, S.k23, S.k24, S.k25, S.k26, S.k27, S.k30, v, S.k32, S.k33, S.k34, S.k35, S.k36, S.k37⟩
  | 3, 2 => ⟨S.k00, S.k01, S.k02, S.k03, S.k04, S.k05, S.k06, S.k07, S.k10, S.k11, S.k12, S.k13, S.k14, S.k15, S.k16, S.k17, S.k20, S.k21, S.k22, S.k23, S.k24, S.k25, S.k26, S.k27, S.k30, S.k31, v, S.k33, S.k34, S.k35, S.k36, S.k37⟩
  | 3, 3 => ⟨S.k00, S.k01, S.k02, S.k03, S.k04, S.k05, S.k06, S.k07, S.k10, S.k11, S.k12, S.k13, S.k14, S.k15, S.k16, S.k17, S.k20, S.k21, S.k22, S.k23, S.k24, S.k25, S.k26, S.k27, S.k30, S.k31, S.k32, v, S.k34, S.k35, S.k36, S.k37⟩
  | 3, 4 => ⟨S.k00, S.k01, S.k02, S.k03, S.k04, S.k05, S.k06, S.k07, S.k10, S.k11, S.k12, S.k13, S.k14, S.k15, S.k16, S.k17, S.k20, S.k21, S.k22, S.k23, S.k24, S.k25, S.k26, S.k27, S.k30, S.k31, S.k32, S.k33, v, S.k35, S.k36, S.k37⟩
  | 3, 5 => ⟨S.k00, S.k01, S.k02, S.k03, S.k04, S.k05, S.k06, S.k07, S.k10, S.k11, S.k12, S.k13, S.k14, S.k15, S.k16, S.k17, S.k20, S.k21, S.k22, S.k23, S.k24, S.k25, S.k26, S.k27, S.k30, S.k31, S.k32, S.k33, S.k34, v, S.k36, S.k37⟩
  | 3, 6 => ⟨S.k00, S.k01, S.k02, S.k03, S.k04, S.k05, S.k06, S.k07, S.k10, S.k11, S.k12, S.k13, S.k14, S.k15, S.k16, S.k17, S.k20, S.k21, S.k22, S.k23, S.k24, S.k25, S.k26, S.k27, S.k30, S.k31, S.k32, S.k33, S.k34, S.k35, v, S.k37⟩
  | 3, 7 => ⟨S.k00, S.k01, S.k02, S.k03, S.k04, S.k05, S.k06, S.k07, S.k10, S.k11, S.k12, S.k13, S.k14, S.k15, S.k16, S.k17, S.k20, S.k21, S.k22, S.k23, S.k24, S.k25, S.k26, S.k27, S.k30, S.k31, S.k32, S.k33, S.k34, S.k35, S.k36, v⟩
  | _, _ => S

/-- Apply the key-schedule mix to column `j` (the 4 values, one per row). -/
def ksMixCol (S : KS) (j : Nat) : KS :=
  let p := F_G_Mix (ksGet S 0 j) (ksGet S 1 j) (ksGet S 2 j) (ksGet S 3 j)
  ksSet (ksSet (ksSet (ksSet S 0 j p.1) 1 j p.2.1) 2 j p.2.2.1) 3 j p.2.2.2

/-- Apply the key-schedule mix to the four positions
`(base, base+1, base+2, base+3) mod 8` of row `i`. -/
def ksMixRow (S : KS) (i base : Nat) : KS :=
  let p := F_G_Mix (ksGet S i (base % 8)) (ksGet S i ((base + 1) % 8))
    (ksGet S i ((base + 2) % 8)) (ksGet S i ((base + 3) % 8))
  ksSet (ksSet (ksSet (ksSet S i (base % 8) p.1) i ((base + 1) % 8) p.2.1)
    i ((base + 2) % 8) p.2.2.1) i ((base + 3) % 8) p.2.2.2

/-- One permutation round as the specification words it: add the round
constant into the 4 diagonal elements `KSS[i][i]`; mix each of the 8 columns;
then per row `i` mix positions `(i, i+1, i+2, i+3) mod 8` and
`(i+4, i+5, i+6, i+7) mod 8`. -/
def F_perm_Round_fromSpec (S : KS) (r : Nat) : KS :=
  let S1 := (List.range 4).foldl
    (fun T i => ksSet T i i (add32 (ksGet T i i) (RC_F.getD (r * 4 + i) 0))) S
  let S2 := (List.range 8).foldl ksMixCol S1
  (List.range 4).foldl (fun T i => ksMixRow (ksMixRow T i i) i (i + 4)) S2

/-- The 16-round permutation, specification reading. -/
def F_perm_fromSpec (S : KS) : KS := (List.range 16).foldl F_perm_Round_fromSpec S

theorem F_perm_Round_fromSpec_eq (S : KS) (r : Nat) :
    F_perm_Round_fromSpec S r = F_perm_Round S r := by
  obtain ⟨v00, v01, v02, v03, v04, v05, v06, v07,
    v10, v11, v12, v13, v14, v15, v16, v17,
    v20, v21, v22, v23, v24, v25, v26, v27,
    v30, v31, v32, v33, v34, v35, v36, v37⟩ := S
  rfl

/-- All-zero key-schedule state (fold seed for the spec-style initialization). -/
def ksZero : KS := ⟨0, 0, 0, 0, 0, 0, 0, 0, 0, 0, 0, 0, 0, 0, 0, 0,
  0, 0, 0, 0, 0, 0, 0, 0, 0, 0, 0, 0, 0, 0, 0, 0⟩

/-- Initialization as the specification words it: row 0 takes the 8
little-endian master-key words, rows 1..3 take the 24 `C_INIT` constants. -/
def initKSS_fromSpec (mk : Nat → Nat) : KS :=
  (List.range 4).foldl (fun T i => (List.range 8).foldl
    (fun U j => ksSet U i j
      (if i = 0 then load_le32 mk (4 * j) else C_INIT.getD ((i - 1) * 8 + j) 0)) T) ksZero

/-- Squeeze-step counter perturbation, specification reading. -/
def perturbKSS_fromSpec (S : KS) (i : Nat) : KS :=
  ksSet (ksSet (ksSet (ksSet S 0 7 (add32 (ksGet S 0 7) (i + 1)))
    1 3 (add32 (ksGet S 1 3) (i + 1)))
    2 6 (add32 (ksGet S 2 6) (i + 1)))
    3 1 (add32 (ksGet S 3 1) (i + 1))

/-- Domain-separation injection, specification reading: XOR the whole state
with the 32-word `KSC` chunk for step `i`. -/
def xorKSC_fromSpec (S : KS) (i : Nat) : KS :=
  (List.range 4).foldl (fun T rr => (List.range 8).foldl
    (fun U cc => ksSet U rr cc (ksGet U rr cc ^^^ KSC.getD (i * 32 + rr * 8 + cc) 0)) T) S

/-- Squeeze copy, specification reading: the first 4 columns of all 4 rows. -/
def subkeyOf_fromSpec (S : KS) : St :=
  ⟨ksGet S 0 0, ksGet S 0 1, ksGet S 0 2, ksGet S 0 3,
   ksGet S 1 0, ksGet S 1 1, ksGet S 1 2, ksGet S 1 3,
   ksGet S 2 0, ksGet S 2 1, ksGet S 2 2, ksGet S 2 3,
   ksGet S 3 0, ksGet S 3 1, ksGet S 3 2, ksGet S 3 3⟩

/-- Squeeze transition, specification reading. -/
def ksStep_fromSpec (S : KS) (i : Nat) : KS :=
  F_perm_fromSpec (xorKSC_fromSpec (perturbKSS_fromSpec S i) i)

/-- Squeeze loop, specification reading: no permutation after the last
subkey. -/
def squeeze_fromSpec : KS → Nat → Nat → List St
  | _, _, 0 => []
  | S, _, 1 => [subkeyOf_fromSpec S]
  | S, i, n + 2 => subkeyOf_fromSpec S :: squeeze_fromSpec (ksStep_fromSpec S i) (i + 1) (n + 1)

/-- The full key schedule, specification reading. -/
def Charybdis_KeySchedule_fromSpec (mk : Nat → Nat) : List St :=
  squeeze_fromSpec (F_perm_fromSpec (initKSS_fromSpec mk)) 0 24

theorem F_perm_fromSpec_eq (S : KS) : F_perm_fromSpec S = F_perm S := by
  have h : F_perm_Round_fromSpec = F_perm_Round :=
    funext fun T => funext fun r => F_perm_Round_fromSpec_eq T r
  unfold F_perm_fromSpec F_perm
  rw [h]

theorem initKSS_fromSpec_eq (mk : Nat → Nat) : initKSS_fromSpec mk = initKSS mk := rfl

theorem perturbKSS_fromSpec_eq (S : KS) (i : Nat) : perturbKSS_fromSpec S i = perturbKSS S i := by
  obtain ⟨v00, v01, v02, v03, v04, v05, v06, v07,
    v10, v11, v12, v13, v14, v15, v16, v17,
    v20, v21, v22, v23, v24, v25, v26, v27,
    v30, v31, v32, v33, v34, v35, v36, v37⟩ := S
  rfl

theorem xorKSC_fromSpec_eq (S : KS) (i : Nat) : xorKSC_fromSpec S i = xorKSC S i := by
  obtain ⟨v00, v01, v02, v03, v04, v05, v06, v07,
    v10, v11, v12, v13, v14, v15, v16, v17,
    v20, v21, v22, v23, v24, v25, v26, v27,
    v30, v31, v32, v33, v34, v35, v36, v37⟩ := S
  rfl

theorem subkeyOf_fromSpec_eq (S : KS) : subkeyOf_fromSpec S = subkeyOf S := rfl

theorem ksStep_fromSpec_eq (S : KS) (i : Nat) : ksStep_fromSpec S i = ksStep S i := by
  unfold ksStep_fromSpec ksStep
  rw [perturbKSS_fromSpec_eq, xorKSC_fromSpec_eq, F_perm_fromSpec_eq]

theorem squeeze_fromSpec_eq : ∀ (n : Nat) (S : KS) (i : Nat),
    squeeze_fromSpec S i n = squeeze S i n := by
  intro n
  induction n using Nat.strong_induction_on with
  | _ n ih =>
    intro S i
    rcases n with _ | (_ | m)
    · rfl
    · simp only [squeeze_fromSpec, squeeze, subkeyOf_fromSpec_eq]
    · simp only [squeeze_fromSpec, squeeze, subkeyOf_fromSpec_eq]
      rw [ksStep_fromSpec_eq]
      rw [ih (m + 1) (by omega)]

/-- Claim C3: the source key schedule follows exactly the algorithm stated in
the specification (diagonal constant addition, column mixes, wraparound row
group mixes per round; squeeze with counter perturbation at the four fixed
positions, KSC domain-separation XOR, and re-permutation before every subkey
except the last). -/
theorem Charybdis_KeySchedule_follows_spec (mk : Nat → Nat) :
    Charybdis_KeySchedule mk = Charybdis_KeySchedule_fromSpec mk := by
  unfold Charybdis_KeySchedule Charybdis_KeySchedule_fromSpec
  rw [initKSS_fromSpec_eq, F_perm_fromSpec_eq, squeeze_fromSpec_eq]

/-! ## AVX2 batch engine (`charybdis_avx2.c`)

A `__m256i` holds eight 32-bit lanes, modelled as structure `Reg` (lane `m`
of the register is field `lm`).  `_mm256_shuffle_epi8` is only ever used
with `avx2_swap_mask = (3,2,1,0, 7,6,5,4, ...)`, which reverses the four
bytes of every 32-bit lane, so it is modelled as the per-lane byte swap
`bswap32`.  On x86-64 (the only platform this code runs on) a 32-bit lane
loaded by `_mm256_loadu_si256` holds the little-endian value of its four
bytes. -/

/-- One 256-bit register: eight 32-bit lanes. -/
structure Reg where
  (l0 l1 l2 l3 l4 l5 l6 l7 : Nat)
deriving DecidableEq

/-- All-zero register. -/
def regZero : Reg := ⟨0, 0, 0, 0, 0, 0, 0, 0⟩

/-- Lane `m` of a register. -/
def regLane (a : Reg) (m : Nat) : Nat :=
  match m with
  | 0 => a.l0 | 1 => a.l1 | 2 => a.l2 | 3 => a.l3
  | 4 => a.l4 | 5 => a.l5 | 6 => a.l6 | _ => a.l7

/-- `_mm256_add_epi32`: lane-wise truncating 32-bit addition. -/
def regAdd (a b : Reg) : Reg :=
  ⟨add32 a.l0 b.l0, add32 a.l1 b.l1, add32 a.l2 b.l2, add32 a.l3 b.l3,
   add32 a.l4 b.l4, add32 a.l5 b.l5, add32 a.l6 b.l6, add32 a.l7 b.l7⟩

/-- `_mm256_sub_epi32`: lane-wise truncating 32-bit subtraction. -/
def regSub (a b : Reg) : Reg :=
  ⟨sub32 a.l0 b.l0, sub32 a.l1 b.l1, sub32 a.l2 b.l2, sub32 a.l3 b.l3,
   sub32 a.l4 b.l4, sub32 a.l5 b.l5, sub32 a.l6 b.l6, sub32 a.l7 b.l7⟩

/-- `_mm256_xor_si256` on 32-bit lanes. -/
def regXor (a b : Reg) : Reg :=
  ⟨a.l0 ^^^ b.l0, a.l1 ^^^ b.l1, a.l2 ^^^ b.l2, a.l3 ^^^ b.l3,
   a.l4 ^^^ b.l4, a.l5 ^^^ b.l5, a.l6 ^^^ b.l6, a.l7 ^^^ b.l7⟩

/-- Macro `AVX2_ROR32`: lane-wise right rotation. -/
def regRor (a : Reg) (n : Nat) : Reg :=
  ⟨ROTR a.l0 n, ROTR a.l1 n, ROTR a.l2 n, ROTR a.l3 n,
   ROTR a.l4 n, ROTR a.l5 n, ROTR a.l6 n, ROTR a.l7 n⟩

/-- Macro `AVX2_ROL32`: lane-wise left rotation. -/
def regRol (a : Reg) (n : Nat) : Reg :=
  ⟨ROTL a.l0 n, ROTL a.l1 n, ROTL a.l2 n, ROTL a.l3 n,
   ROTL a.l4 n, ROTL a.l5 n, ROTL a.l6 n, ROTL a.l7 n⟩

/-- `_mm256_set1_epi32`: broadcast one word to all 8 lanes. -/
def regBcast (w : Nat) : Reg := ⟨w, w, w, w, w, w, w, w⟩

/-- `_mm256_unpacklo_epi32` (per 128-bit half: `a0 b0 a1 b1`). -/
def unpacklo32 (a b : Reg) : Reg := ⟨a.l0, b.l0, a.l1, b.l1, a.l4, b.l4, a.l5, b.l5⟩

/-- `_mm256_unpackhi_epi32` (per 128-bit half: `a2 b2 a3 b3`). -/
def unpackhi32 (a b : Reg) : Reg := ⟨a.l2, b.l2, a.l3, b.l3, a.l6, b.l6, a.l7, b.l7⟩

/-- `_mm256_unpacklo_epi64` (per 128-bit half: low 64-bit elements of `a`, `b`). -/
def unpacklo64 (a b : Reg) : Reg := ⟨a.l0, a.l1, b.l0, b.l1, a.l4, a.l5, b.l4, b.l5⟩

/-- `_mm256_unpackhi_epi64`. -/
def unpackhi64 (a b : Reg) : Reg := ⟨a.l2, a.l3, b.l2, b.l3, a.l6, a.l7, b.l6, b.l7⟩

/-- `_mm256_permute2x128_si256(a, b, 0x20)`: low 128-bit halves of `a` then `b`. -/
def permute2x128_20 (a b : Reg) : Reg := ⟨a.l0, a.l1, a.l2, a.l3, b.l0, b.l1, b.l2, b.l3⟩

/-- `_mm256_permute2x128_si256(a, b, 0x31)`: high 128-bit halves of `a` then `b`. -/
def permute2x128_31 (a b : Reg) : Reg := ⟨a.l4, a.l5, a.l6, a.l7, b.l4, b.l5, b.l6, b.l7⟩

/-- Byte swap of a 32-bit word (`_mm256_shuffle_epi8` with `avx2_swap_mask`
acts as this on every lane). -/
def bswap32 (w : Nat) : Nat :=
  16777216 * (w % 256) + 65536 * (w / 256 % 256) + 256 * (w / 65536 % 256) + w / 16777216 % 256

/-- Lane-wise byte swap: shuffle with `avx2_swap_mask`. -/
def regBswap (a : Reg) : Reg :=
  ⟨bswap32 a.l0, bswap32 a.l1, bswap32 a.l2, bswap32 a.l3,
   bswap32 a.l4, bswap32 a.l5, bswap32 a.l6, bswap32 a.l7⟩

/-- `_mm256_loadu_si256` at byte offset `off`: lane `m` holds the
little-endian value of bytes `off + 4m .. off + 4m + 3`. -/
def loadu (b : Nat → Nat) (off : Nat) : Reg :=
  ⟨load_le32 b off, load_le32 b (off + 4), load_le32 b (off + 8), load_le32 b (off + 12),
   load_le32 b (off + 16), load_le32 b (off + 20), load_le32 b (off + 24), load_le32 b (off + 28)⟩

/-- The vector state `__m256i state[4][4]`: field `vij` models `state[i][j]`. -/
structure VSt where
  (v00 v01 v02 v03 : Reg)
  (v10 v11 v12 v13 : Reg)
  (v20 v21 v22 v23 : Reg)
  (v30 v31 v32 v33 : Reg)
deriving DecidableEq

/-- All-zero vector state. -/
def vstZero : VSt := ⟨regZero, regZero, regZero, regZero, regZero, regZero, regZero, regZero,
  regZero, regZero, regZero, regZero, regZero, regZero, regZero, regZero⟩

/-- `avx2_g_mix_stage1`: `a += b; d ^= a; d = ror(d, 13)`; returns the
updated `(a, d)`. -/
def avx2_g_mix_stage1 (a b d : Reg) : Reg × Reg :=
  let a := regAdd a b
  let d := regRor (regXor d a) 13
  (a, d)

/-- `avx2_g_mix_stage2`: `c += d; b ^= c; b = ror(b, 19)`; returns the
updated `(c, b)`. -/
def avx2_g_mix_stage2 (c b d : Reg) : Reg × Reg :=
  let c := regAdd c d
  let b := regRor (regXor b c) 19
  (c, b)

/-- `avx2_g_mix_stage3`: `a += b; d ^= a; d = ror(d, 23)`; returns the
updated `(a, d)`. -/
def avx2_g_mix_stage3 (a b d : Reg) : Reg × Reg :=
  let a := regAdd a b
  let d := regRor (regXor d a) 23
  (a, d)

/-- `avx2_g_mix_stage4`: `c += d; b ^= c; b = ror(b, 29)`; returns the
updated `(c, b)`. -/
def avx2_g_mix_stage4 (c b d : Reg) : Reg × Reg :=
  let c := regAdd c d
  let b := regRor (regXor b c) 29
  (c, b)

/-- `avx2_h_mix_stage1`: `a += b; d ^= a; d = ror(d, 9)`; returns the
updated `(a, d)`. -/
def avx2_h_mix_stage1 (a b d : Reg) : Reg × Reg :=
  let a := regAdd a b
  let d := regRor (regXor d a) 9
  (a, d)

/-- `avx2_h_mix_stage2`: `c += d; b ^= c; b = ror(b, 17)`; returns the
updated `(c, b)`. -/
def avx2_h_mix_stage2 (c b d : Reg) : Reg × Reg :=
  let c := regAdd c d
  let b := regRor (regXor b c) 17
  (c, b)

/-- `avx2_h_mix_stage3`: `a += b; d ^= a; d = ror(d, 21)`; returns the
updated `(a, d)`. -/
def avx2_h_mix_stage3 (a b d : Reg) : Reg × Reg :=
  let a := regAdd a b
  let d := regRor (regXor d a) 21
  (a, d)

/-- `avx2_h_mix_stage4`: `c += d; b ^= c; b = ror(b, 27)`; returns the
updated `(c, b)`. -/
def avx2_h_mix_stage4 (c b d : Reg) : Reg × Reg :=
  let c := regAdd c d
  let b := regRor (regXor b c) 27
  (c, b)

/-- `avx2_inv_g_mix_stage1`: `d = rol(d, 13); d ^= a; a -= b`; returns
the updated `(d, a)`. -/
def avx2_inv_g_mix_stage1 (a b d : Reg) : Reg × Reg :=
  let d := regXor (regRol d 13) a
  let a := regSub a b
  (d, a)

/-- `avx2_inv_g_mix_stage2`: `b = rol(b, 19); b ^= c; c -= d`; returns
the updated `(b, c)`. -/
def avx2_inv_g_mix_stage2 (c b d : Reg) : Reg × Reg :=
  let b := regXor (regRol b 19) c
  let c := regSub c d
  (b, c)

/-- `avx2_inv_g_mix_stage3`: `d = rol(d, 23); d ^= a; a -= b`; returns
the updated `(d, a)`. -/
def avx2_inv_g_mix_stage3 (a b d : Reg) : Reg × Reg :=
  let d := regXor (regRol d 23) a
  let a := regSub a b
  (d, a)

/-- `avx2_inv_g_mix_stage4`: `b = rol(b, 29); b ^= c; c -= d`; returns
the updated `(b, c)`. -/
def avx2_inv_g_mix_stage4 (c b d : Reg) : Reg × Reg :=
  let b := regXor (regRol b 29) c
  let c := regSub c d
  (b, c)

/-- `avx2_inv_h_mix_stage1`: `d = rol(d, 9); d ^= a; a -= b`; returns
the updated `(d, a)`. -/
def avx2_inv_h_mix_stage1 (a b d : Reg) : Reg × Reg :=
  let d := regXor (regRol d 9) a
  let a := regSub a b
  (d, a)

/-- `avx2_inv_h_mix_stage2`: `b = rol(b, 17); b ^= c; c -= d`; returns
the updated `(b, c)`. -/
def avx2_inv_h_mix_stage2 (c b d : Reg) : Reg × Reg :=
  let b := regXor (regRol b 17) c
  let c := regSub c d
  (b, c)

/-- `avx2_inv_h_mix_stage3`: `d = rol(d, 21); d ^= a; a -= b`; returns
the updated `(d, a)`. -/
def avx2_inv_h_mix_stage3 (a b d : Reg) : Reg × Reg :=
  let d := regXor (regRol d 21) a
  let a := regSub a b
  (d, a)

/-- `avx2_inv_h_mix_stage4`: `b = rol(b, 27); b ^= c; c -= d`; returns
the updated `(b, c)`. -/
def avx2_inv_h_mix_stage4 (c b d : Reg) : Reg × Reg :=
  let b := regXor (regRol b 27) c
  let c := regSub c d
  (b, c)

/-- `avx2_column_mix`: the stage calls of the C source in program order,
pipelined across the four columns (each `let` is one stage call on column
`j`; the per-stage register roles follow the C argument lists). -/
def avx2_column_mix (S : VSt) : VSt :=
  let t0 := avx2_g_mix_stage1 S.v00 S.v10 S.v30
  let t1 := avx2_g_mix_stage1 S.v01 S.v11 S.v31
  let t2 := avx2_g_mix_stage1 S.v02 S.v12 S.v32
  let t3 := avx2_g_mix_stage1 S.v03 S.v13 S.v33
  let t4 := avx2_g_mix_stage2 S.v20 S.v10 t0.2
  let t5 := avx2_g_mix_stage2 S.v21 S.v11 t1.2
  let t6 := avx2_g_mix_stage2 S.v22 S.v12 t2.2
  let t7 := avx2_g_mix_stage2 S.v23 S.v13 t3.2
  let t8 := avx2_g_mix_stage3 t0.1 t4.2 t0.2
  let t9 := avx2_g_mix_stage3 t1.1 t5.2 t1.2
  let t10 := avx2_g_mix_stage3 t2.1 t6.2 t2.2
  let t11 := avx2_g_mix_stage3 t3.1 t7.2 t3.2
  let t12 := avx2_g_mix_stage4 t4.1 t4.2 t8.2
  let t13 := avx2_g_mix_stage4 t5.1 t5.2 t9.2
  let t14 := avx2_g_mix_stage4 t6.1 t6.2 t10.2
  let t15 := avx2_g_mix_stage4 t7.1 t7.2 t11.2
  let t16 := avx2_h_mix_stage1 t8.1 t12.2 t8.2
  let t17 := avx2_h_mix_stage1 t9.1 t13.2 t9.2
  let t18 := avx2_h_mix_stage1 t10.1 t14.2 t10.2
  let t19 := avx2_h_mix_stage1 t11.1 t15.2 t11.2
  let t20 := avx2_h_mix_stage2 t12.1 t12.2 t16.2
  let t21 := avx2_h_mix_stage2 t13.1 t13.2 t17.2
  let t22 := avx2_h_mix_stage2 t14.1 t14.2 t18.2
  let t23 := avx2_h_mix_stage2 t15.1 t15.2 t19.2
  let t24 := avx2_h_mix_stage3 t16.1 t20.2 t16.2
  let t25 := avx2_h_mix_stage3 t17.1 t21.2 t17.2
  let t26 := avx2_h_mix_stage3 t18.1 t22.2 t18.2
  let t27 := avx2_h_mix_stage3 t19.1 t23.2 t19.2
  let t28 := avx2_h_mix_stage4 t20.1 t20.2 t24.2
  let t29 := avx2_h_mix_stage4 t21.1 t21.2 t25.2
  let t30 := avx2_h_mix_stage4 t22.1 t22.2 t26.2
  let t31 := avx2_h_mix_stage4 t23.1 t23.2 t27.2
  let t32 := avx2_h_mix_stage1 t28.1 t24.2 t28.2
  let t33 := avx2_h_mix_stage1 t29.1 t25.2 t29.2
  let t34 := avx2_h_mix_stage1 t30.1 t26.2 t30.2
  let t35 := avx2_h_mix_stage1 t31.1 t27.2 t31.2
  let t36 := avx2_h_mix_stage2 t24.1 t24.2 t32.2
  let t37 := avx2_h_mix_stage2 t25.1 t25.2 t33.2
  let t38 := avx2_h_mix_stage2 t26.1 t26.2 t34.2
  let t39 := avx2_h_mix_stage2 t27.1 t27.2 t35.2
  let t40 := avx2_h_mix_stage3 t32.1 t36.2 t32.2
  let t41 := avx2_h_mix_stage3 t33.1 t37.2 t33.2
  let t42 := avx2_h_mix_stage3 t34.1 t38.2 t34.2
  let t43 := avx2_h_mix_stage3 t35.1 t39.2 t35.2
  let t44 := avx2_h_mix_stage4 t36.1 t36.2 t40.2
  let t45 := avx2_h_mix_stage4 t37.1 t37.2 t41.2
  let t46 := avx2_h_mix_stage4 t38.1 t38.2 t42.2
  let t47 := avx2_h_mix_stage4 t39.1 t39.2 t43.2
  let t48 := avx2_g_mix_stage1 t40.1 t44.2 t40.2
  let t49 := avx2_g_mix_stage1 t41.1 t45.2 t41.2
  let t50 := avx2_g_mix_stage1 t42.1 t46.2 t42.2
  let t51 := avx2_g_mix_stage1 t43.1 t47.2 t43.2
  let t52 := avx2_g_mix_stage2 t44.1 t44.2 t48.2
  let t53 := avx2_g_mix_stage2 t45.1 t45.2 t49.2
  let t54 := avx2_g_mix_stage2 t46.1 t46.2 t50.2
  let t55 := avx2_g_mix_stage2 t47.1 t47.2 t51.2
  let t56 := avx2_g_mix_stage3 t48.1 t52.2 t48.2
  let t57 := avx2_g_mix_stage3 t49.1 t53.2 t49.2
  let t58 := avx2_g_mix_stage3 t50.1 t54.2 t50.2
  let t59 := avx2_g_mix_stage3 t51.1 t55.2 t51.2
  let t60 := avx2_g_mix_stage4 t52.1 t52.2 t56.2
  let t61 := avx2_g_mix_stage4 t53.1 t53.2 t57.2
  let t62 := avx2_g_mix_stage4 t54.1 t54.2 t58.2
  let t63 := avx2_g_mix_stage4 t55.1 t55.2 t59.2
  ⟨t60.1, t61.1, t62.1, t63.1,
   t56.2, t57.2, t58.2, t59.2,
   t56.1, t57.1, t58.1, t59.1,
   t60.2, t61.2, t62.2, t63.2⟩

/-- `avx2_inverse_column_mix`: the inverse stage calls of the C source in
program order. -/
def avx2_inverse_column_mix (S : VSt) : VSt :=
  let t0 := avx2_inv_g_mix_stage4 S.v00 S.v30 S.v10
  let t1 := avx2_inv_g_mix_stage4 S.v01 S.v31 S.v11
  let t2 := avx2_inv_g_mix_stage4 S.v02 S.v32 S.v12
  let t3 := avx2_inv_g_mix_stage4 S.v03 S.v33 S.v13
  let t4 := avx2_inv_g_mix_stage3 S.v20 t0.1 S.v10
  let t5 := avx2_inv_g_mix_stage3 S.v21 t1.1 S.v11
  let t6 := avx2_inv_g_mix_stage3 S.v22 t2.1 S.v12
  let t7 := avx2_inv_g_mix_stage3 S.v23 t3.1 S.v13
  let t8 := avx2_inv_g_mix_stage2 t0.2 t0.1 t4.1
  let t9 := avx2_inv_g_mix_stage2 t1.2 t1.1 t5.1
  let t10 := avx2_inv_g_mix_stage2 t2.2 t2.1 t6.1
  let t11 := avx2_inv_g_mix_stage2 t3.2 t3.1 t7.1
  let t12 := avx2_inv_g_mix_stage1 t4.2 t8.1 t4.1
  let t13 := avx2_inv_g_mix_stage1 t5.2 t9.1 t5.1
  let t14 := avx2_inv_g_mix_stage1 t6.2 t10.1 t6.1
  let t15 := avx2_inv_g_mix_stage1 t7.2 t11.1 t7.1
  let t16 := avx2_inv_h_mix_stage4 t8.2 t8.1 t12.1
  let t17 := avx2_inv_h_mix_stage4 t9.2 t9.1 t13.1
  let t18 := avx2_inv_h_mix_stage4 t10.2 t10.1 t14.1
  let t19 := avx2_inv_h_mix_stage4 t11.2 t11.1 t15.1
  let t20 := avx2_inv_h_mix_stage3 t12.2 t16.1 t12.1
  let t21 := avx2_inv_h_mix_stage3 t13.2 t17.1 t13.1
  let t22 := avx2_inv_h_mix_stage3 t14.2 t18.1 t14.1
  let t23 := avx2_inv_h_mix_stage3 t15.2 t19.1 t15.1
  let t24 := avx2_inv_h_mix_stage2 t16.2 t16.1 t20.1
  let t25 := avx2_inv_h_mix_stage2 t17.2 t17.1 t21.1
  let t26 := avx2_inv_h_mix_stage2 t18.2 t18.1 t22.1
  let t27 := avx2_inv_h_mix_stage2 t19.2 t19.1 t23.1
  let t28 := avx2_inv_h_mix_stage1 t20.2 t24.1 t20.1
  let t29 := avx2_inv_h_mix_stage1 t21.2 t25.1 t21.1
  let t30 := avx2_inv_h_mix_stage1 t22.2 t26.1 t22.1
  let t31 := avx2_inv_h_mix_stage1 t23.2 t27.1 t23.1
  let t32 := avx2_inv_h_mix_stage4 t28.2 t28.1 t24.1
  let t33 := avx2_inv_h_mix_stage4 t29.2 t29.1 t25.1
  let t34 := avx2_inv_h_mix_stage4 t30.2 t30.1 t26.1
  let t35 := avx2_inv_h_mix_stage4 t31.2 t31.1 t27.1
  let t36 := avx2_inv_h_mix_stage3 t24.2 t32.1 t24.1
  let t37 := avx2_inv_h_mix_stage3 t25.2 t33.1 t25.1
  let t38 := avx2_inv_h_mix_stage3 t26.2 t34.1 t26.1
  let t39 := avx2_inv_h_mix_stage3 t27.2 t35.1 t27.1
  let t40 := avx2_inv_h_mix_stage2 t32.2 t32.1 t36.1
  let t41 := avx2_inv_h_mix_stage2 t33.2 t33.1 t37.1
  let t42 := avx2_inv_h_mix_stage2 t34.2 t34.1 t38.1
  let t43 := avx2_inv_h_mix_stage2 t35.2 t35.1 t39.1
  let t44 := avx2_inv_h_mix_stage1 t36.2 t40.1 t36.1
  let t45 := avx2_inv_h_mix_stage1 t37.2 t41.1 t37.1
  let t46 := avx2_inv_h_mix_stage1 t38.2 t42.1 t38.1
  let t47 := avx2_inv_h_mix_stage1 t39.2 t43.1 t39.1
  let t48 := avx2_inv_g_mix_stage4 t40.2 t40.1 t44.1
  let t49 := avx2_inv_g_mix_stage4 t41.2 t41.1 t45.1
  let t50 := avx2_inv_g_mix_stage4 t42.2 t42.1 t46.1
  let t51 := avx2_inv_g_mix_stage4 t43.2 t43.1 t47.1
  let t52 := avx2_inv_g_mix_stage3 t44.2 t48.1 t44.1
  let t53 := avx2_inv_g_mix_stage3 t45.2 t49.1 t45.1
  let t54 := avx2_inv_g_mix_stage3 t46.2 t50.1 t46.1
  let t55 := avx2_inv_g_mix_stage3 t47.2 t51.1 t47.1
  let t56 := avx2_inv_g_mix_stage2 t48.2 t48.1 t52.1
  let t57 := avx2_inv_g_mix_stage2 t49.2 t49.1 t53.1
  let t58 := avx2_inv_g_mix_stage2 t50.2 t50.1 t54.1
  let t59 := avx2_inv_g_mix_stage2 t51.2 t51.1 t55.1
  let t60 := avx2_inv_g_mix_stage1 t52.2 t56.1 t52.1
  let t61 := avx2_inv_g_mix_stage1 t53.2 t57.1 t53.1
  let t62 := avx2_inv_g_mix_stage1 t54.2 t58.1 t54.1
  let t63 := avx2_inv_g_mix_stage1 t55.2 t59.1 t55.1
  ⟨t60.2, t61.2, t62.2, t63.2,
   t56.1, t57.1, t58.1, t59.1,
   t56.2, t57.2, t58.2, t59.2,
   t60.1, t61.1, t62.1, t63.1⟩

/-- `avx2_shift_rows`: register reassignment, row `i` rotated left by `i`. -/
def avx2_shift_rows (S : VSt) : VSt :=
  ⟨S.v00, S.v01, S.v02, S.v03,
   S.v11, S.v12, S.v13, S.v10,
   S.v22, S.v23, S.v20, S.v21,
   S.v33, S.v30, S.v31, S.v32⟩

/-- `avx2_inverse_shift_rows`: row `i` rotated right by `i`. -/
def avx2_inverse_shift_rows (S : VSt) : VSt :=
  ⟨S.v00, S.v01, S.v02, S.v03,
   S.v13, S.v10, S.v11, S.v12,
   S.v22, S.v23, S.v20, S.v21,
   S.v31, S.v32, S.v33, S.v30⟩

/-- `avx2_add_round_key`: XOR the state registers with the subkey registers. -/
def avx2_add_round_key (S K : VSt) : VSt :=
  ⟨regXor S.v00 K.v00, regXor S.v01 K.v01, regXor S.v02 K.v02, regXor S.v03 K.v03,
   regXor S.v10 K.v10, regXor S.v11 K.v11, regXor S.v12 K.v12, regXor S.v13 K.v13,
   regXor S.v20 K.v20, regXor S.v21 K.v21, regXor S.v22 K.v22, regXor S.v23 K.v23,
   regXor S.v30 K.v30, regXor S.v31 K.v31, regXor S.v32 K.v32, regXor S.v33 K.v33⟩

/-- `avx2_sub_constants`: XOR with the pre-vectorized round constants. -/
def avx2_sub_constants (S RC : VSt) : VSt := avx2_add_round_key S RC

/-- `avx2_encrypt_round`. -/
def avx2_encrypt_round (S K RC : VSt) : VSt :=
  avx2_add_round_key (avx2_shift_rows (avx2_column_mix (avx2_sub_constants S RC))) K

/-- `avx2_decrypt_round`. -/
def avx2_decrypt_round (S K RC : VSt) : VSt :=
  avx2_sub_constants (avx2_inverse_column_mix (avx2_inverse_shift_rows
    (avx2_add_round_key S K))) RC

/-- `avx2_load_8_blocks_optimized`: sixteen 32-byte loads with the per-lane
byte swap, then the three interleave levels of the source (each level pairs
registers `2i` and `2i+1`), and `state[i][j] = level3[i*4+j]`. -/
def avx2_load_8_blocks_optimized (inb : Nat → Nat) (off : Nat) : VSt :=
  let d0 := regBswap (loadu inb off)
  let d1 := regBswap (loadu inb (off + 32))
  let d2 := regBswap (loadu inb (off + 64))
  let d3 := regBswap (loadu inb (off + 96))
  let d4 := regBswap (loadu inb (off + 128))
  let d5 := regBswap (loadu inb (off + 160))
  let d6 := regBswap (loadu inb (off + 192))
  let d7 := regBswap (loadu inb (off + 224))
  let d8 := regBswap (loadu inb (off + 256))
  let d9 := regBswap (loadu inb (off + 288))
  let d10 := regBswap (loadu inb (off + 320))
  let d11 := regBswap (loadu inb (off + 352))
  let d12 := regBswap (loadu inb (off + 384))
  let d13 := regBswap (loadu inb (off + 416))
  let d14 := regBswap (loadu inb (off + 448))
  let d15 := regBswap (loadu inb (off + 480))
  let e0 := unpacklo32 d0 d1
  let e1 := unpackhi32 d0 d1
  let e2 := unpacklo32 d2 d3
  let e3 := unpackhi32 d2 d3
  let e4 := unpacklo32 d4 d5
  let e5 := unpackhi32 d4 d5
  let e6 := unpacklo32 d6 d7
  let e7 := unpackhi32 d6 d7
  let e8 := unpacklo32 d8 d9
  let e9 := unpackhi32 d8 d9
  let e10 := unpacklo32 d10 d11
  let e11 := unpackhi32 d10 d11
  let e12 := unpacklo32 d12 d13
  let e13 := unpackhi32 d12 d13
  let e14 := unpacklo32 d14 d15
  let e15 := unpackhi32 d14 d15
  let f0 := unpacklo64 e0 e1
  let f1 := unpackhi64 e0 e1
  let f2 := unpacklo64 e2 e3
  let f3 := unpackhi64 e2 e3
  let f4 := unpacklo64 e4 e5
  let f5 := unpackhi64 e4 e5
  let f6 := unpacklo64 e6 e7
  let f7 := unpackhi64 e6 e7
  let f8 := unpacklo64 e8 e9
  let f9 := unpackhi64 e8 e9
  let f10 := unpacklo64 e10 e11
  let f11 := unpackhi64 e10 e11
  let f12 := unpacklo64 e12 e13
  let f13 := unpackhi64 e12 e13
  let f14 := unpacklo64 e14 e15
  let f15 := unpackhi64 e14 e15
  let g0 := permute2x128_20 f0 f1
  let g1 := permute2x128_31 f0 f1
  let g2 := permute2x128_20 f2 f3
  let g3 := permute2x128_31 f2 f3
  let g4 := permute2x128_20 f4 f5
  let g5 := permute2x128_31 f4 f5
  let g6 := permute2x128_20 f6 f7
  let g7 := permute2x128_31 f6 f7
  let g8 := permute2x128_20 f8 f9
  let g9 := permute2x128_31 f8 f9
  let g10 := permute2x128_20 f10 f11
  let g11 := permute2x128_31 f10 f11
  let g12 := permute2x128_20 f12 f13
  let g13 := permute2x128_31 f12 f13
  let g14 := permute2x128_20 f14 f15
  let g15 := permute2x128_31 f14 f15
  ⟨g0, g1, g2, g3,
   g4, g5, g6, g7,
   g8, g9, g10, g11,
   g12, g13, g14, g15⟩

/-- `avx2_store_8_blocks_optimized`: the reverse interleave network followed
by the byte swap; the result is read back as a byte function on offsets
`0..511` (byte `k` sits in register `k / 32`, lane `(k % 32) / 4`). -/
def avx2_store_8_blocks_optimized (S : VSt) : Nat → Nat :=
  let f0 := permute2x128_20 S.v00 S.v01
  let f1 := permute2x128_31 S.v00 S.v01
  let f2 := permute2x128_20 S.v02 S.v03
  let f3 := permute2x128_31 S.v02 S.v03
  let f4 := permute2x128_20 S.v10 S.v11
  let f5 := permute2x128_31 S.v10 S.v11
  let f6 := permute2x128_20 S.v12 S.v13
  let f7 := permute2x128_31 S.v12 S.v13
  let f8 := permute2x128_20 S.v20 S.v21
  let f9 := permute2x128_31 S.v20 S.v21
  let f10 := permute2x128_20 S.v22 S.v23
  let f11 := permute2x128_31 S.v22 S.v23
  let f12 := permute2x128_20 S.v30 S.v31
  let f13 := permute2x128_31 S.v30 S.v31
  let f14 := permute2x128_20 S.v32 S.v33
  let f15 := permute2x128_31 S.v32 S.v33
  let e0 := unpacklo64 f0 f1
  let e1 := unpackhi64 f0 f1
  let e2 := unpacklo64 f2 f3
  let e3 := unpackhi64 f2 f3
  let e4 := unpacklo64 f4 f5
  let e5 := unpackhi64 f4 f5
  let e6 := unpacklo64 f6 f7
  let e7 := unpackhi64 f6 f7
  let e8 := unpacklo64 f8 f9
  let e9 := unpackhi64 f8 f9
  let e10 := unpacklo64 f10 f11
  let e11 := unpackhi64 f10 f11
  let e12 := unpacklo64 f12 f13
  let e13 := unpackhi64 f12 f13
  let e14 := unpacklo64 f14 f15
  let e15 := unpackhi64 f14 f15
  let d0 := unpacklo32 e0 e1
  let d1 := unpackhi32 e0 e1
  let d2 := unpacklo32 e2 e3
  let d3 := unpackhi32 e2 e3
  let d4 := unpacklo32 e4 e5
  let d5 := unpackhi32 e4 e5
  let d6 := unpacklo32 e6 e7
  let d7 := unpackhi32 e6 e7
  let d8 := unpacklo32 e8 e9
  let d9 := unpackhi32 e8 e9
  let d10 := unpacklo32 e10 e11
  let d11 := unpackhi32 e10 e11
  let d12 := unpacklo32 e12 e13
  let d13 := unpackhi32 e12 e13
  let d14 := unpacklo32 e14 e15
  let d15 := unpackhi32 e14 e15
  let s0 := regBswap d0
  let s1 := regBswap d1
  let s2 := regBswap d2
  let s3 := regBswap d3
  let s4 := regBswap d4
  let s5 := regBswap d5
  let s6 := regBswap d6
  let s7 := regBswap d7
  let s8 := regBswap d8
  let s9 := regBswap d9
  let s10 := regBswap d10
  let s11 := regBswap d11
  let s12 := regBswap d12
  let s13 := regBswap d13
  let s14 := regBswap d14
  let s15 := regBswap d15
  let dsel : Nat → Reg := fun m =>
    match m with
    | 0 => s0
    | 1 => s1
    | 2 => s2
    | 3 => s3
    | 4 => s4
    | 5 => s5
    | 6 => s6
    | 7 => s7
    | 8 => s8
    | 9 => s9
    | 10 => s10
    | 11 => s11
    | 12 => s12
    | 13 => s13
    | 14 => s14
    | _ => s15
  fun k => le_byte (regLane (dsel (k / 32)) (k % 32 / 4)) (k % 4)


/-- `CHARYBDIS_AVX2_ISA_TAG` (0x41565832, the bytes "AVX2"). -/
def CHARYBDIS_AVX2_ISA_TAG : Nat := 1096439858

/-- `sizeof(charybdis_avx2_context_t)` on x86-64 with the declared 32-byte
alignment: 24*4*4*32 + 22*4*4*32 + 24*4*4*4 + 4 + 4 = 25096 bytes of fields,
padded up to the 32-byte boundary: 25120. -/
def charybdis_avx2_context_size : Nat := 25120

/-- The context validity marker `CHARYBDIS_AVX2_ISA_TAG ^ sizeof(*ctx)`. -/
def avx2_ctx_marker : Nat := CHARYBDIS_AVX2_ISA_TAG ^^^ charybdis_avx2_context_size

/-- The AVX2 context `charybdis_avx2_context_t`: pre-vectorized subkeys and
round constants, cached scalar subkeys, ISA tag and validity marker. -/
structure charybdis_avx2_context_t where
  vec_subkeys : List VSt
  vec_round_constants : List VSt
  scalar_subkeys : List St
  isa_tag : Nat
  initialized : Nat
deriving DecidableEq

/-- Broadcast a 4x4 subkey matrix into a 4x4 matrix of 8-lane registers
(`_mm256_set1_epi32` on every word). -/
def bcastSt (K : St) : VSt :=
  ⟨regBcast K.s00, regBcast K.s01, regBcast K.s02, regBcast K.s03,
   regBcast K.s10, regBcast K.s11, regBcast K.s12, regBcast K.s13,
   regBcast K.s20, regBcast K.s21, regBcast K.s22, regBcast K.s23,
   regBcast K.s30, regBcast K.s31, regBcast K.s32, regBcast K.s33⟩

/-- Round-constant matrix of round `round` (`CHARYBDIS_RC[(round-1)*16 + 4i + j]`). -/
def rcMatrix (round : Nat) : St :=
  ⟨rcWord round 0 0, rcWord round 0 1, rcWord round 0 2, rcWord round 0 3,
   rcWord round 1 0, rcWord round 1 1, rcWord round 1 2, rcWord round 1 3,
   rcWord round 2 0, rcWord round 2 1, rcWord round 2 2, rcWord round 2 3,
   rcWord round 3 0, rcWord round 3 1, rcWord round 3 2, rcWord round 3 3⟩

/-- `charybdis_avx2_init_context` on a subkey schedule (the AVX2 capability
probe is environment state outside this model; the successful path is
modelled): cache the scalar subkeys, broadcast subkeys and round constants,
set the ISA tag and the validity marker. -/
def charybdis_avx2_init_context (subkeys : Nat → St) : charybdis_avx2_context_t :=
  ⟨(List.range 24).map (fun r => bcastSt (subkeys r)),
   (List.range' 1 22).map (fun round => bcastSt (rcMatrix round)),
   (List.range 24).map subkeys,
   CHARYBDIS_AVX2_ISA_TAG,
   avx2_ctx_marker⟩

/-- The 8-block SIMD encryption body: initial whitening with `vec_subkeys[0]`,
22 rounds, final whitening with `vec_subkeys[23]`. -/
def avx2_encrypt_group (ctx : charybdis_avx2_context_t) (S : VSt) : VSt :=
  let S := avx2_add_round_key S (ctx.vec_subkeys.getD 0 vstZero)
  let S := (List.range' 1 22).foldl
    (fun T r => avx2_encrypt_round T (ctx.vec_subkeys.getD r vstZero)
      (ctx.vec_round_constants.getD (r - 1) vstZero)) S
  avx2_add_round_key S (ctx.vec_subkeys.getD 23 vstZero)

/-- The 8-block SIMD decryption body: whitening with `vec_subkeys[23]`,
22 inverse rounds, final whitening with `vec_subkeys[0]`. -/
def avx2_decrypt_group (ctx : charybdis_avx2_context_t) (S : VSt) : VSt :=
  let S := avx2_add_round_key S (ctx.vec_subkeys.getD 23 vstZero)
  let S := (List.range' 1 22).reverse.foldl
    (fun T r => avx2_decrypt_round T (ctx.vec_subkeys.getD r vstZero)
      (ctx.vec_round_constants.getD (r - 1) vstZero)) S
  avx2_add_round_key S (ctx.vec_subkeys.getD 0 vstZero)

/-- Bytes produced by `charybdis_avx2_encrypt_blocks` on the success path:
full groups of 8 blocks go through the SIMD path, remaining blocks through
the scalar engine with the cached scalar subkeys. -/
def avx2_encrypt_bytes (inb : Nat → Nat) (nblocks : Nat)
    (ctx : charybdis_avx2_context_t) : Nat → Nat :=
  fun k =>
    if k / 512 < nblocks / 8 then
      avx2_store_8_blocks_optimized
        (avx2_encrypt_group ctx (avx2_load_8_blocks_optimized inb (512 * (k / 512))))
        (k % 512)
    else
      Charybdis_EncryptBlock (fun t => inb (64 * (k / 64) + t))
        (fun r => ctx.scalar_subkeys.getD r stZero) (k % 64)

/-- Bytes produced by `charybdis_avx2_decrypt_blocks` on the success path. -/
def avx2_decrypt_bytes (inb : Nat → Nat) (nblocks : Nat)
    (ctx : charybdis_avx2_context_t) : Nat → Nat :=
  fun k =>
    if k / 512 < nblocks / 8 then
      avx2_store_8_blocks_optimized
        (avx2_decrypt_group ctx (avx2_load_8_blocks_optimized inb (512 * (k / 512))))
        (k % 512)
    else
      Charybdis_DecryptBlock (fun t => inb (64 * (k / 64) + t))
        (fun r => ctx.scalar_subkeys.getD r stZero) (k % 64)

/-- `charybdis_avx2_encrypt_blocks`: guard `!in || !out || !ctx ||
nblocks == 0 || ctx->initialized != (TAG ^ sizeof)` returns -1 and leaves
the output buffer untouched; otherwise writes `64 * nblocks` bytes and
returns 0.  Null pointers are modelled as `none`. -/
def charybdis_avx2_encrypt_blocks (inb outb : Option (Nat → Nat)) (nblocks : Nat)
    (ctx : Option charybdis_avx2_context_t) : Int × Option (Nat → Nat) :=
  match inb, outb, ctx with
  | some i, some o, some c =>
    if nblocks = 0 ∨ c.initialized ≠ avx2_ctx_marker then (-1, some o)
    else (0, some (fun k => if k < 64 * nblocks then avx2_encrypt_bytes i nblocks c k else o k))
  | _, _, _ => (-1, outb)

/-- `charybdis_avx2_decrypt_blocks`: same guard as encryption. -/
def charybdis_avx2_decrypt_blocks (inb outb : Option (Nat → Nat)) (nblocks : Nat)
    (ctx : Option charybdis_avx2_context_t) : Int × Option (Nat → Nat) :=
  match inb, outb, ctx with
  | some i, some o, some c =>
    if nblocks = 0 ∨ c.initialized ≠ avx2_ctx_marker then (-1, some o)
    else (0, some (fun k => if k < 64 * nblocks then avx2_decrypt_bytes i nblocks c k else o k))
  | _, _, _ => (-1, outb)

/-- `charybdis_avx2_clear_context`: no-op on a null context; otherwise the
secure memzero clears every byte of the structure. -/
def clearedAvxCtx : charybdis_avx2_context_t :=
  ⟨List.replicate 24 vstZero, List.replicate 22 vstZero, List.replicate 24 stZero, 0, 0⟩

/-- `charybdis_avx2_clear_context` itself. -/
def charybdis_avx2_clear_context (ctx : Option charybdis_avx2_context_t) :
    Option charybdis_avx2_context_t :=
  match ctx with
  | none => none
  | some _ => some clearedAvxCtx

/-- The all-zero subkey schedule (a valid schedule for the batch engine,
which accepts any subkey array). -/
def zeroSubkeys : Nat → St := fun _ => stZero

/-- AVX2 context built from the all-zero subkey schedule. -/
def zeroAvxCtx : charybdis_avx2_context_t := charybdis_avx2_init_context zeroSubkeys

set_option maxRecDepth 20000 in
/-- Claim C2 (refuted): with the all-zero subkey schedule and eight all-zero
input blocks, the first output block of the SIMD batch path differs from the
scalar `Charybdis_EncryptBlock` output on the same block — the batch and
scalar paths are not byte-identical. -/
theorem avx2_encrypt_blocks_diverges_from_scalar :
    (List.range 64).map (avx2_encrypt_bytes (fun _ => 0) 8 zeroAvxCtx) ≠
      blockBytes (Charybdis_EncryptBlock (fun _ => 0) zeroSubkeys) := by
  decide

/-- Claim C8: both batch entry points return the distinct failure value -1
and leave the output unchanged on a null input, output or context pointer,
on a zero block count, or on a validity-marker mismatch, and return 0
otherwise. -/
theorem avx2_blocks_guard (inf outf : Nat → Nat) (n : Nat)
    (c : charybdis_avx2_context_t) (ob : Option (Nat → Nat))
    (oc : Option charybdis_avx2_context_t) :
    (charybdis_avx2_encrypt_blocks none ob n oc = (-1, ob)) ∧
    (charybdis_avx2_encrypt_blocks (some inf) none n oc = (-1, none)) ∧
    (charybdis_avx2_encrypt_blocks (some inf) (some outf) n none = (-1, some outf)) ∧
    (charybdis_avx2_encrypt_blocks (some inf) (some outf) 0 (some c) = (-1, some outf)) ∧
    (c.initialized ≠ avx2_ctx_marker →
      charybdis_avx2_encrypt_blocks (some inf) (some outf) n (some c) = (-1, some outf)) ∧
    (n ≠ 0 → c.initialized = avx2_ctx_marker →
      (charybdis_avx2_encrypt_blocks (some inf) (some outf) n (some c)).1 = 0) ∧
    (charybdis_avx2_decrypt_blocks none ob n oc = (-1, ob)) ∧
    (charybdis_avx2_decrypt_blocks (some inf) none n oc = (-1, none)) ∧
    (charybdis_avx2_decrypt_blocks (some inf) (some outf) n none = (-1, some outf)) ∧
    (charybdis_avx2_decrypt_blocks (some inf) (some outf) 0 (some c) = (-1, some outf)) ∧
    (c.initialized ≠ avx2_ctx_marker →
      charybdis_avx2_decrypt_blocks (some inf) (some outf) n (some c) = (-1, some outf)) ∧
    (n ≠ 0 → c.initialized = avx2_ctx_marker →
      (charybdis_avx2_decrypt_blocks (some inf) (some outf) n (some c)).1 = 0) ∧
    (-1 : Int) ≠ 0 := by
  refine ⟨rfl, rfl, rfl, ?_, ?_, ?_, rfl, rfl, rfl, ?_, ?_, ?_, by norm_num⟩
  · simp [charybdis_avx2_encrypt_blocks]
  · intro h
    simp [charybdis_avx2_encrypt_blocks, h]
  · intro hn hc
    simp [charybdis_avx2_encrypt_blocks, hn, hc]
  · simp [charybdis_avx2_decrypt_blocks]
  · intro h
    simp [charybdis_avx2_decrypt_blocks, h]
  · intro hn hc
    simp [charybdis_avx2_decrypt_blocks, hn, hc]

/-- Witness for claim C8: the zero-block-count failure and the success path
on the zero context. -/
theorem avx2_blocks_guard_witness :
    charybdis_avx2_encrypt_blocks (some (fun _ => 0)) (some (fun _ => 0)) 0 (some zeroAvxCtx) =
      (-1, some (fun _ => 0)) ∧
    (charybdis_avx2_encrypt_blocks (some (fun _ => 0)) (some (fun _ => 0)) 1 (some zeroAvxCtx)).1 = 0 :=
  ⟨(avx2_blocks_guard (fun _ => 0) (fun _ => 0) 0 zeroAvxCtx none none).2.2.2.1,
   (avx2_blocks_guard (fun _ => 0) (fun _ => 0) 1 zeroAvxCtx none none).2.2.2.2.2.1
     (by norm_num) rfl⟩

/-- Every stored field of the cleared context is zero (the model of "every
byte of the structure reads as zero" after the secure memzero). -/
def ctxAllZero (c : charybdis_avx2_context_t) : Prop :=
  c.vec_subkeys = List.replicate 24 vstZero ∧
  c.vec_round_constants = List.replicate 22 vstZero ∧
  c.scalar_subkeys = List.replicate 24 stZero ∧
  c.isa_tag = 0 ∧ c.initialized = 0

/-- Claim C9: `charybdis_avx2_clear_context` is a no-op on null, idempotent,
zeroes the whole context, invalidates the marker, and any subsequent batch
call on the cleared context fails with -1. -/
theorem avx2_clear_context_properties (c : charybdis_avx2_context_t)
    (inf outf : Nat → Nat) (n : Nat) :
    charybdis_avx2_clear_context none = none ∧
    charybdis_avx2_clear_context (charybdis_avx2_clear_context (some c)) =
      charybdis_avx2_clear_context (some c) ∧
    charybdis_avx2_clear_context (some c) = some clearedAvxCtx ∧
    ctxAllZero clearedAvxCtx ∧
    clearedAvxCtx.initialized ≠ avx2_ctx_marker ∧
    charybdis_avx2_encrypt_blocks (some inf) (some outf) n (some clearedAvxCtx) =
      (-1, some outf) ∧
    charybdis_avx2_decrypt_blocks (some inf) (some outf) n (some clearedAvxCtx) =
      (-1, some outf) := by
  have hm : clearedAvxCtx.initialized ≠ avx2_ctx_marker := by decide
  refine ⟨rfl, rfl, rfl, ⟨rfl, rfl, rfl, rfl, rfl⟩, hm, ?_, ?_⟩
  · simp [charybdis_avx2_encrypt_blocks, hm]
  · simp [charybdis_avx2_decrypt_blocks, hm]

/-! ## Context-based convenience wrappers (`charybdis.h`) -/

/-- `charybdis_context_t`: the expanded subkeys. -/
structure charybdis_context_t where
  subkeys : List St
deriving DecidableEq

/-- `charybdis_init`: null check, then `Charybdis_KeySchedule` into the
context. -/
def charybdis_init (ctx : Option charybdis_context_t) (mk : Option (Nat → Nat)) :
    Int × Option charybdis_context_t :=
  match ctx, mk with
  | some _, some k => (0, some ⟨Charybdis_KeySchedule k⟩)
  | _, _ => (-1, ctx)

/-- `charybdis_encrypt`: null check, then one block encryption with the
context subkeys. -/
def charybdis_encrypt (ctx : Option charybdis_context_t)
    (inb outb : Option (Nat → Nat)) : Int × Option (Nat → Nat) :=
  match ctx, inb, outb with
  | some c, some i, some o =>
    (0, some (fun k => if k < 64 then
      Charybdis_EncryptBlock i (fun r => c.subkeys.getD r stZero) k else o k))
  | _, _, _ => (-1, outb)

/-- `charybdis_decrypt`: null check, then one block decryption. -/
def charybdis_decrypt (ctx : Option charybdis_context_t)
    (inb outb : Option (Nat → Nat)) : Int × Option (Nat → Nat) :=
  match ctx, inb, outb with
  | some c, some i, some o =>
    (0, some (fun k => if k < 64 then
      Charybdis_DecryptBlock i (fun r => c.subkeys.getD r stZero) k else o k))
  | _, _, _ => (-1, outb)

/-- Claim C10: the convenience wrappers return -1 without performing the
operation whenever any pointer argument is null, and return 0 after
performing the key schedule / block operation otherwise. -/
theorem charybdis_wrappers_guard (c : charybdis_context_t) (mk inf outf : Nat → Nat)
    (ok oi oo : Option (Nat → Nat)) :
    (charybdis_init none ok = (-1, none)) ∧
    (charybdis_init (some c) none = (-1, some c)) ∧
    (charybdis_init (some c) (some mk) = (0, some ⟨Charybdis_KeySchedule mk⟩)) ∧
    (charybdis_encrypt none oi oo = (-1, oo)) ∧
    (charybdis_encrypt (some c) none oo = (-1, oo)) ∧
    (charybdis_encrypt (some c) (some inf) none = (-1, none)) ∧
    (charybdis_encrypt (some c) (some inf) (some outf) = (0, some (fun k =>
      if k < 64 then Charybdis_EncryptBlock inf (fun r => c.subkeys.getD r stZero) k
      else outf k))) ∧
    (charybdis_decrypt none oi oo = (-1, oo)) ∧
    (charybdis_decrypt (some c) none oo = (-1, oo)) ∧
    (charybdis_decrypt (some c) (some inf) none = (-1, none)) ∧
    (charybdis_decrypt (some c) (some inf) (some outf) = (0, some (fun k =>
      if k < 64 then Charybdis_DecryptBlock inf (fun r => c.subkeys.getD r stZero) k
      else outf k))) ∧
    (-1 : Int) ≠ 0 :=
  ⟨rfl, rfl, rfl, rfl, rfl, rfl, rfl, rfl, rfl, rfl, rfl, by norm_num⟩
